import Mathlib

/-!
# dwFramework renderer: shallow embedding of `src/src/renderer.cpp`

The development embeds the frame-rendering core of `dw::Renderer`
(`load_shader`, `load_program`, `render`, `render_scene`,
`render_atmosphere`) as pure state-passing functions.

Conventions of the embedding

* An opaque device object pointer (`Shader*`, `Texture2D*`, `UniformBuffer*`, ...)
  is a natural number, `0` being `nullptr`.  Pointers the renderer dereferences
  (`Scene*`, `Mesh*`, `Material*`) are `Option` values, `none` being `nullptr`.
* A `float` is its IEEE-754 single precision bit pattern; `0.0f` is `0`.
  The product of two `glm::mat4` is a parameter (`mul`) of `render`.
* Every call made on `m_device` is appended to `RenderDevice.trace`, oldest
  first.  The `memcpy` into a mapped buffer is recorded in the same trace
  together with the number of bytes copied.
* What the outside world answers (file contents, handles returned by the device,
  whether `map_buffer` returns a non-null pointer) is passed in as an argument.
* Dereferencing a null `m_scene` and storing past the end of
  `m_per_entity_uniforms[1024]` are undefined behaviour in C++; `render`
  has no result (`none`) there.  The loop that fills the array is embedded as
  written, without a capacity check (`per_entity_loop`), and records the
  indices it stores to.
* `LOG_INFO` / `LOG_ERROR` calls are not part of the state and are left out.
-/

namespace dw

/-- Opaque object pointer; the value `0` is `nullptr`. -/
abbrev Ptr := Nat

/-- The null pointer. -/
def nullptr : Ptr := 0

/-- A `float`, represented by its IEEE-754 bit pattern. -/
abbrev Float32 := Nat

/-- The literal `0.0f`. -/
def f0 : Float32 := 0

/-- Modelled from the spec: `glm::vec3` (glm.hpp is not part of the sources). -/
structure Vec3 where
  x : Float32
  y : Float32
  z : Float32
deriving DecidableEq, Inhabited

/-- Modelled from the spec: `glm::vec4` (glm.hpp is not part of the sources). -/
structure Vec4 where
  x : Float32
  y : Float32
  z : Float32
  w : Float32
deriving DecidableEq, Inhabited

/-- Modelled from the spec: `glm::mat4`, four column vectors (glm.hpp is not part of the sources). -/
structure Mat4 where
  c0 : Vec4
  c1 : Vec4
  c2 : Vec4
  c3 : Vec4
deriving DecidableEq, Inhabited

/-- Modelled from the spec: `ShaderType` of render_device.h (missing), the two stages the renderer names. -/
inductive ShaderType where
  | VERTEX
  | FRAGMENT
deriving DecidableEq, Inhabited

/-- Modelled from the spec: `PrimitiveType` of render_device.h (missing). -/
inductive PrimitiveType where
  | TRIANGLES
deriving DecidableEq, Inhabited

/-- Modelled from the spec: `ClearTarget` of render_device.h (missing). -/
inductive ClearTarget where
  | ALL
deriving DecidableEq, Inhabited

/-- Modelled from the spec: `BufferMapType` of render_device.h (missing). -/
inductive BufferMapType where
  | WRITE
deriving DecidableEq, Inhabited

/-- Modelled from the spec: the calls of the Graphics Device contract (render_device.h is missing)
that the embedded functions make, with their arguments, plus the host-side `memcpy` into mapped
buffer memory (destination buffer, byte offset inside the mapping, byte count). -/
inductive Cmd where
  | create_shader (source : String) (type : Int)
  | create_shader_program (shaders : List Ptr) (count : Nat)
  | map_buffer (buffer : Ptr) (type : BufferMapType)
  | memcpy (buffer : Ptr) (offset : Nat) (size : Nat)
  | unmap_buffer (buffer : Ptr)
  | bind_framebuffer (fbo : Ptr)
  | set_viewport (w : Nat) (h : Nat) (x : Nat) (y : Nat)
  | clear_framebuffer (target : ClearTarget) (color : List Float32)
  | bind_shader_program (program : Ptr)
  | bind_rasterizer_state (state : Ptr)
  | bind_depth_stencil_state (state : Ptr)
  | bind_uniform_buffer (buffer : Ptr) (stage : ShaderType) (slot : Nat)
  | bind_uniform_buffer_range (buffer : Ptr) (stage : ShaderType) (slot : Nat) (offset : Nat) (size : Nat)
  | bind_sampler_state (state : Ptr) (stage : ShaderType) (slot : Nat)
  | bind_texture (texture : Ptr) (stage : ShaderType) (slot : Nat)
  | bind_vertex_array (vao : Ptr)
  | set_primitive_type (type : PrimitiveType)
  | draw (first : Nat) (count : Nat)
  | draw_indexed_base_vertex (count : Nat) (base_index : Nat) (base_vertex : Nat)
deriving DecidableEq, Inhabited

/-- Modelled from the spec: `Material` of Material.h (missing): four optional texture references. -/
structure Material where
  texture_albedo : Ptr
  texture_normal : Ptr
  texture_metalness : Ptr
  texture_roughness : Ptr
deriving DecidableEq, Inhabited

/-- Modelled from the spec: `SubMesh` of Mesh.h (missing): a draw range and an optional material. -/
structure SubMesh where
  indexCount : Nat
  baseIndex : Nat
  baseVertex : Nat
  mat : Option Material
deriving DecidableEq, Inhabited

/-- Modelled from the spec: `Mesh` of Mesh.h (missing): a vertex array and an ordered sequence of
submeshes; `sub_mesh_count()` is the length of the sequence. -/
structure Mesh where
  mesh_vertex_array : Ptr
  sub_meshes : List SubMesh
deriving DecidableEq, Inhabited

/-- Number of submeshes, `Mesh::sub_mesh_count()`. -/
def Mesh.sub_mesh_count (m : Mesh) : Nat := m.sub_meshes.length

/-- Entity of `include/entity.h`; `ID` is taken to be a number. -/
structure Entity where
  id : Nat
  m_name : String
  m_position : Vec3
  m_rotation : Vec3
  m_scale : Vec3
  m_transform : Mat4
  m_prev_transform : Mat4
  m_program : Ptr
  m_override_mat : Option Material
  m_mesh : Option Mesh
deriving DecidableEq, Inhabited

/-- Modelled from the spec: `Scene` of Scene.h (missing): the ordered entity sequence and the three
environment textures. -/
structure Scene where
  entities : List Entity
  env_map : Ptr
  irradiance_map : Ptr
  prefiltered_map : Ptr
deriving DecidableEq, Inhabited

/-- Number of entities, `Scene::entity_count()`. -/
def Scene.entity_count (s : Scene) : Nat := s.entities.length

/-- Modelled from the spec: `Camera` of camera.h (missing): the members `render` reads. -/
structure Camera where
  m_view : Mat4
  m_projection : Mat4
  m_view_projection : Mat4
  m_forward : Vec3
  m_position : Vec3
deriving DecidableEq, Inhabited

/-- PointLight of `include/renderer.h`. -/
structure PointLight where
  position : Vec4
  color : Vec4
deriving DecidableEq, Inhabited

/-- DirectionalLight of `include/renderer.h`. -/
structure DirectionalLight where
  direction : Vec4
  color : Vec4
deriving DecidableEq, Inhabited

/-- PerFrameUniforms of `include/renderer.h`. -/
structure PerFrameUniforms where
  lastViewProj : Mat4
  viewProj : Mat4
  invViewProj : Mat4
  projMat : Mat4
  viewMat : Mat4
  viewPos : Vec4
  viewDir : Vec4
deriving DecidableEq, Inhabited

/-- PerEntityUniforms of `include/renderer.h`; `padding` is the 112 reserved bytes. -/
structure PerEntityUniforms where
  mvpMat : Mat4
  modalMat : Mat4
  worldPos : Vec4
  padding : List Nat
deriving DecidableEq, Inhabited

/-- PerSceneUniforms of `include/renderer.h`; `pointLights` has `MAX_POINT_LIGHTS` elements. -/
structure PerSceneUniforms where
  pointLights : List PointLight
  directionalLight : DirectionalLight
  pointLightCount : Int
deriving DecidableEq, Inhabited

/-- Byte size of a `float`. -/
def sizeof_float : Nat := 4

/-- Byte size of `glm::vec4`. -/
def sizeof_vec4 : Nat := 4 * sizeof_float

/-- Byte size of `glm::mat4`. -/
def sizeof_mat4 : Nat := 4 * sizeof_vec4

/-- Modelled from the spec: `DW_ALIGNED(16)` of macros.h (missing) aligns a structure to 16 bytes,
so that its size is rounded up to a multiple of 16; `align_up n a` rounds `n` up to a multiple
of `a`. -/
def align_up (n a : Nat) : Nat := (n + a - 1) / a * a

/-- Value of `sizeof(PerEntityUniforms)`: two matrices, one vector, `uint8_t padding[112]`,
rounded to the 16 byte alignment of `DW_ALIGNED(16)`. -/
def sizeof_PerEntityUniforms : Nat :=
  align_up (sizeof_mat4 + sizeof_mat4 + sizeof_vec4 + 112) 16

/-- Value of `sizeof(PerFrameUniforms)`: five matrices and two vectors. -/
def sizeof_PerFrameUniforms : Nat :=
  align_up (5 * sizeof_mat4 + 2 * sizeof_vec4) 16

/-- The constant `MAX_POINT_LIGHTS`. -/
def MAX_POINT_LIGHTS : Nat := 32

/-- Value of `sizeof(PerSceneUniforms)`: the point lights, the directional light and an `int`. -/
def sizeof_PerSceneUniforms : Nat :=
  align_up (MAX_POINT_LIGHTS * (2 * sizeof_vec4) + 2 * sizeof_vec4 + 4) 16

/-- Number of elements of `m_per_entity_uniforms` (and of records in the per-entity device buffer). -/
def PER_ENTITY_CAPACITY : Nat := 1024

/-- The file-scope constant `clear_color`: `{ 0.1f, 0.1f, 0.1f, 1.0f }` as bit patterns. -/
def clear_color : List Float32 := [0x3DCCCCCD, 0x3DCCCCCD, 0x3DCCCCCD, 0x3F800000]

/-- Modelled from the spec: the Graphics Device (render_device.h is missing).  It records the calls
made on it and holds the contents of the three uniform buffers of the renderer; the per-entity
buffer is addressed by record index. -/
structure RenderDevice where
  trace : List Cmd
  per_frame_mem : PerFrameUniforms
  per_scene_mem : PerSceneUniforms
  per_entity_mem : Nat → PerEntityUniforms

/-- Record a list of calls at the end of the device trace. -/
def RenderDevice.issue (d : RenderDevice) (cs : List Cmd) : RenderDevice :=
  { d with trace := d.trace ++ cs }

/-- The type `std::unordered_map<std::string, T*>`: a finite map with unique keys. -/
abbrev Cache := AList (fun _ : String => Ptr)

/-- The members of `dw::Renderer` (`include/renderer.h`). -/
structure Renderer where
  m_width : Nat
  m_height : Nat
  m_scene : Option Scene
  m_device : RenderDevice
  m_trilinear_sampler : Ptr
  m_bilinear_sampler : Ptr
  m_per_scene : Ptr
  m_per_frame : Ptr
  m_per_material : Ptr
  m_per_entity : Ptr
  m_standard_rs : Ptr
  m_atmosphere_rs : Ptr
  m_standard_ds : Ptr
  m_atmosphere_ds : Ptr
  m_quad_vao : Ptr
  m_quad_vbo : Ptr
  m_quad_layout : Ptr
  m_cube_vao : Ptr
  m_cube_vbo : Ptr
  m_cube_layout : Ptr
  m_per_frame_uniforms : PerFrameUniforms
  m_per_scene_uniforms : PerSceneUniforms
  m_per_entity_uniforms : Nat → PerEntityUniforms
  m_cube_map_vs : Ptr
  m_cube_map_fs : Ptr
  m_cube_map_program : Ptr
  m_brdfLUT : Ptr
  m_program_cache : Cache
  m_shader_cache : Cache

/-- Issue device calls from the renderer: `m_device->...`. -/
def Renderer.issue (r : Renderer) (cs : List Cmd) : Renderer :=
  { r with m_device := r.m_device.issue cs }

/-- The function `Renderer::set_scene`. -/
def set_scene (r : Renderer) (scene : Option Scene) : Renderer :=
  { r with m_scene := scene }

/-- The function `Renderer::load_shader` (renderer.cpp 296-319).  `ReadText` is the answer of
`Utility::ReadText` (`none`: the read failed), `create_shader` the handle the device returns. -/
def load_shader (ReadText : String → Option String) (create_shader : String → Int → Ptr)
    (r : Renderer) (type : Int) (path : String) (_mat : Option Material) : Ptr × Renderer :=
  match ReadText path with
  | none => (nullptr, r)
  | some source =>
    match r.m_shader_cache.lookup path with
    | none =>
      let shader := create_shader source type
      (shader, { r.issue [Cmd.create_shader source type] with
                 m_shader_cache := r.m_shader_cache.insert path shader })
    | some cached => (cached, r)

/-- The function `Renderer::load_program` (renderer.cpp 321-337).  `create_shader_program` is the
handle the device returns. -/
def load_program (create_shader_program : List Ptr → Nat → Ptr)
    (r : Renderer) (combined_name : String) (count : Nat) (shaders : List Ptr) : Ptr × Renderer :=
  match r.m_program_cache.lookup combined_name with
  | none =>
    let program := create_shader_program shaders count
    (program, { r.issue [Cmd.create_shader_program shaders count] with
                m_program_cache := r.m_program_cache.insert combined_name program })
  | some cached => (cached, r)

/-- The material a submesh is drawn with (renderer.cpp 443-446): `submeshes[j].mat`, replaced by
`entity.m_override_mat` when it is null. -/
def resolve_material (sub : SubMesh) (entity : Entity) : Option Material :=
  match sub.mat with
  | some mat => some mat
  | none => entity.m_override_mat

/-- Sampler and texture binding of one material texture (e.g. renderer.cpp 454-458): nothing is
issued for a null texture. -/
def texture_cmds (r : Renderer) (texture : Ptr) (slot : Nat) : List Cmd :=
  if texture = nullptr then []
  else [Cmd.bind_sampler_state r.m_trilinear_sampler ShaderType.FRAGMENT slot,
        Cmd.bind_texture texture ShaderType.FRAGMENT slot]

/-- The block `if (mat) { ... }` of renderer.cpp 450-483. -/
def material_cmds (r : Renderer) (mat : Option Material) : List Cmd :=
  match mat with
  | none => []
  | some mat =>
    texture_cmds r mat.texture_albedo 0 ++ texture_cmds r mat.texture_normal 1 ++
    texture_cmds r mat.texture_metalness 2 ++ texture_cmds r mat.texture_roughness 3

/-- Body of the submesh loop of `render_scene` (renderer.cpp 443-486) for entity index `i`.  The
byte offset `i * sizeof(PerEntityUniforms)` is a `size_t` product; it is kept unbounded here. -/
def submesh_cmds (r : Renderer) (i : Nat) (entity : Entity) (mesh : Mesh) (sub : SubMesh) : List Cmd :=
  [Cmd.bind_vertex_array mesh.mesh_vertex_array] ++
  material_cmds r (resolve_material sub entity) ++
  [Cmd.bind_uniform_buffer_range r.m_per_entity ShaderType.VERTEX 1
      (i * sizeof_PerEntityUniforms) sizeof_PerEntityUniforms,
   Cmd.draw_indexed_base_vertex sub.indexCount sub.baseIndex sub.baseVertex]

/-- The submesh loop `for (j = 0; j < sub_mesh_count(); j++)` of `render_scene`. -/
def submesh_loop (r : Renderer) (i : Nat) (entity : Entity) (mesh : Mesh) : List SubMesh → List Cmd
  | [] => []
  | sub :: rest => submesh_cmds r i entity mesh sub ++ submesh_loop r i entity mesh rest

/-- State bound once per surviving entity before its submeshes (renderer.cpp 420-439). -/
def entity_state_cmds (r : Renderer) (scene : Scene) (entity : Entity) : List Cmd :=
  [Cmd.bind_shader_program entity.m_program,
   Cmd.bind_rasterizer_state r.m_standard_rs,
   Cmd.bind_depth_stencil_state r.m_standard_ds,
   Cmd.bind_uniform_buffer r.m_per_frame ShaderType.VERTEX 0,
   Cmd.bind_uniform_buffer r.m_per_scene ShaderType.FRAGMENT 2,
   Cmd.bind_sampler_state r.m_bilinear_sampler ShaderType.FRAGMENT 4,
   Cmd.bind_texture scene.irradiance_map ShaderType.FRAGMENT 4,
   Cmd.bind_sampler_state r.m_trilinear_sampler ShaderType.FRAGMENT 5,
   Cmd.bind_texture scene.prefiltered_map ShaderType.FRAGMENT 5,
   Cmd.bind_sampler_state r.m_bilinear_sampler ShaderType.FRAGMENT 6,
   Cmd.bind_texture r.m_brdfLUT ShaderType.FRAGMENT 6,
   Cmd.set_primitive_type PrimitiveType.TRIANGLES]

/-- Body of the entity loop of `render_scene` (renderer.cpp 415-487) for entity index `i`:
`continue` when the mesh or the program is null. -/
def entity_cmds (r : Renderer) (scene : Scene) (i : Nat) (entity : Entity) : List Cmd :=
  match entity.m_mesh with
  | none => []
  | some mesh =>
    if entity.m_program = nullptr then []
    else entity_state_cmds r scene entity ++ submesh_loop r i entity mesh mesh.sub_meshes

/-- The entity loop `for (i = 0; i < entity_count; i++)` of `render_scene`, from index `i` on. -/
def entity_loop (r : Renderer) (scene : Scene) : Nat → List Entity → List Cmd
  | _, [] => []
  | i, entity :: rest => entity_cmds r scene i entity ++ entity_loop r scene (i + 1) rest

/-- Calls issued before the entity loop of `render_scene` (renderer.cpp 406-408). -/
def render_scene_begin (r : Renderer) : List Cmd :=
  [Cmd.bind_framebuffer nullptr,
   Cmd.set_viewport r.m_width r.m_height 0 0,
   Cmd.clear_framebuffer ClearTarget.ALL clear_color]

/-- All calls of `Renderer::render_scene` on the scene `m_scene` points to. -/
def render_scene_cmds (r : Renderer) (scene : Scene) : List Cmd :=
  render_scene_begin r ++ entity_loop r scene 0 scene.entities

/-- The function `Renderer::render_scene` (renderer.cpp 404-489), the opaque scene pass. -/
def render_scene (r : Renderer) : Option Renderer :=
  match r.m_scene with
  | none => none
  | some scene => some (r.issue (render_scene_cmds r scene))

/-- All calls of `Renderer::render_atmosphere` on the scene `m_scene` points to. -/
def render_atmosphere_cmds (r : Renderer) (scene : Scene) : List Cmd :=
  [Cmd.bind_rasterizer_state r.m_atmosphere_rs,
   Cmd.bind_depth_stencil_state r.m_atmosphere_ds,
   Cmd.bind_shader_program r.m_cube_map_program,
   Cmd.bind_uniform_buffer r.m_per_frame ShaderType.VERTEX 0,
   Cmd.bind_sampler_state r.m_bilinear_sampler ShaderType.FRAGMENT 0,
   Cmd.bind_texture scene.env_map ShaderType.FRAGMENT 0,
   Cmd.bind_vertex_array r.m_cube_vao,
   Cmd.set_primitive_type PrimitiveType.TRIANGLES,
   Cmd.draw 0 36]

/-- The function `Renderer::render_atmosphere` (renderer.cpp 391-402). -/
def render_atmosphere (r : Renderer) : Option Renderer :=
  match r.m_scene with
  | none => none
  | some scene => some (r.issue (render_atmosphere_cmds r scene))

/-- The function `Renderer::render_post_process` (renderer.cpp 491-496); `render` does not call it. -/
def render_post_process (r : Renderer) : Renderer :=
  r.issue [Cmd.bind_vertex_array r.m_quad_vao,
           Cmd.set_primitive_type PrimitiveType.TRIANGLES,
           Cmd.draw 0 6]

/-- The assignments to `m_per_frame_uniforms` of `render` (renderer.cpp 344-348). -/
def update_per_frame (u : PerFrameUniforms) (camera : Camera) : PerFrameUniforms :=
  { u with
    projMat := camera.m_projection
    viewMat := camera.m_view
    viewProj := camera.m_view_projection
    viewDir := ⟨camera.m_forward.x, camera.m_forward.y, camera.m_forward.z, f0⟩
    viewPos := ⟨camera.m_position.x, camera.m_position.y, camera.m_position.z, f0⟩ }

/-- The three assignments to `m_per_entity_uniforms[i]` of renderer.cpp 353-355. -/
def update_entity_record (mul : Mat4 → Mat4 → Mat4) (camera : Camera) (entity : Entity)
    (u : PerEntityUniforms) : PerEntityUniforms :=
  { u with
    modalMat := entity.m_transform
    mvpMat := mul camera.m_view_projection entity.m_transform
    worldPos := ⟨entity.m_position.x, entity.m_position.y, entity.m_position.z, f0⟩ }

/-- The array `m_per_entity_uniforms` as the loop of `render` works on it, with a record of the
stores made: `cells k` is the element at index `k` (the array has the indices below 1024, an index
from 1024 on addresses the memory behind it) and `stores` lists the indices stored to, oldest
first. -/
structure PerEntityArray where
  cells : Nat → PerEntityUniforms
  stores : List Nat

/-- The stores `m_per_entity_uniforms[i].member = ...` of one loop iteration: the element at index
`i` is replaced by `f` of it and `i` is recorded.  No bound on `i` is checked, as in the source. -/
def PerEntityArray.assign (a : PerEntityArray) (i : Nat)
    (f : PerEntityUniforms → PerEntityUniforms) : PerEntityArray :=
  ⟨Function.update a.cells i (f (a.cells i)), a.stores ++ [i]⟩

/-- The loop of renderer.cpp 350-356 from index `i` on, as it is written: one iteration per entity,
each storing to element `i`, with no capacity check. -/
def per_entity_loop (mul : Mat4 → Mat4 → Mat4) (camera : Camera) :
    List Entity → Nat → PerEntityArray → PerEntityArray
  | [], _, a => a
  | entity :: rest, i, a =>
    per_entity_loop mul camera rest (i + 1) (a.assign i (update_entity_record mul camera entity))

/-- The loop of renderer.cpp 350-356 run on the array `arr`.  A store at an index outside
`m_per_entity_uniforms[1024]` is undefined behaviour: the result is defined only when every store
the loop made was inside the array. -/
def update_per_entity (mul : Mat4 → Mat4 → Mat4) (camera : Camera) (entities : List Entity)
    (i : Nat) (arr : Nat → PerEntityUniforms) : Option (Nat → PerEntityUniforms) :=
  if (per_entity_loop mul camera entities i ⟨arr, []⟩).stores.all
      (fun j => decide (j < PER_ENTITY_CAPACITY))
  then some (per_entity_loop mul camera entities i ⟨arr, []⟩).cells
  else none

/-- Effect of `memcpy(mem, &src[0], size)` on a buffer of per-entity records: the records lying
inside the first `size` bytes are replaced by those of `src`. -/
def memcpy_records (dst src : Nat → PerEntityUniforms) (size : Nat) : Nat → PerEntityUniforms :=
  fun k => if (k + 1) * sizeof_PerEntityUniforms ≤ size then src k else dst k

/-- Whether each of the three `map_buffer` calls of one `render` call returns a non-null pointer. -/
structure MapReplies where
  per_frame : Bool
  per_scene : Bool
  per_entity : Bool
deriving DecidableEq, Inhabited

/-- Upload of the per-frame block (renderer.cpp 358-364). -/
def upload_per_frame (mapped : Bool) (r : Renderer) : Renderer :=
  let r1 := r.issue [Cmd.map_buffer r.m_per_frame BufferMapType.WRITE]
  if mapped then
    { r1 with
      m_device :=
        { r1.m_device with
          trace := r1.m_device.trace ++
            [Cmd.memcpy r.m_per_frame 0 sizeof_PerFrameUniforms, Cmd.unmap_buffer r.m_per_frame]
          per_frame_mem := r.m_per_frame_uniforms } }
  else r1

/-- Upload of the per-scene block (renderer.cpp 366-372). -/
def upload_per_scene (mapped : Bool) (r : Renderer) : Renderer :=
  let r1 := r.issue [Cmd.map_buffer r.m_per_scene BufferMapType.WRITE]
  if mapped then
    { r1 with
      m_device :=
        { r1.m_device with
          trace := r1.m_device.trace ++
            [Cmd.memcpy r.m_per_scene 0 sizeof_PerSceneUniforms, Cmd.unmap_buffer r.m_per_scene]
          per_scene_mem := r.m_per_scene_uniforms } }
  else r1

/-- Upload of the per-entity records (renderer.cpp 374-380). -/
def upload_per_entity (mapped : Bool) (entity_count : Nat) (r : Renderer) : Renderer :=
  let r1 := r.issue [Cmd.map_buffer r.m_per_entity BufferMapType.WRITE]
  if mapped then
    { r1 with
      m_device :=
        { r1.m_device with
          trace := r1.m_device.trace ++
            [Cmd.memcpy r.m_per_entity 0 (sizeof_PerEntityUniforms * entity_count),
             Cmd.unmap_buffer r.m_per_entity]
          per_entity_mem :=
            memcpy_records r1.m_device.per_entity_mem r.m_per_entity_uniforms
              (sizeof_PerEntityUniforms * entity_count) } }
  else r1

/-- The function `Renderer::render` (renderer.cpp 339-384).  `mul` is the `glm::mat4` product and
`maps` the answers of the three `map_buffer` calls. -/
def render (mul : Mat4 → Mat4 → Mat4) (maps : MapReplies) (r : Renderer) (camera : Camera) :
    Option Renderer :=
  match r.m_scene with
  | none => none
  | some scene =>
    let r1 := { r with m_per_frame_uniforms := update_per_frame r.m_per_frame_uniforms camera }
    match update_per_entity mul camera scene.entities 0 r1.m_per_entity_uniforms with
    | none => none
    | some arr =>
      let r2 := { r1 with m_per_entity_uniforms := arr }
      let r3 := upload_per_frame maps.per_frame r2
      let r4 := upload_per_scene maps.per_scene r3
      let r5 := upload_per_entity maps.per_entity scene.entity_count r4
      (render_scene r5).bind render_atmosphere

/-- Calls `render` issues while uploading the three uniform blocks. -/
def upload_cmds (maps : MapReplies) (r : Renderer) (entity_count : Nat) : List Cmd :=
  [Cmd.map_buffer r.m_per_frame BufferMapType.WRITE] ++
  (if maps.per_frame then
    [Cmd.memcpy r.m_per_frame 0 sizeof_PerFrameUniforms, Cmd.unmap_buffer r.m_per_frame] else []) ++
  [Cmd.map_buffer r.m_per_scene BufferMapType.WRITE] ++
  (if maps.per_scene then
    [Cmd.memcpy r.m_per_scene 0 sizeof_PerSceneUniforms, Cmd.unmap_buffer r.m_per_scene] else []) ++
  [Cmd.map_buffer r.m_per_entity BufferMapType.WRITE] ++
  (if maps.per_entity then
    [Cmd.memcpy r.m_per_entity 0 (sizeof_PerEntityUniforms * entity_count),
     Cmd.unmap_buffer r.m_per_entity] else [])

/-- A renderer with every handle distinct and non-null, empty caches and no scene. -/
def sample_renderer : Renderer where
  m_width := 1280
  m_height := 720
  m_scene := none
  m_device := ⟨[], default, default, fun _ => default⟩
  m_trilinear_sampler := 1
  m_bilinear_sampler := 2
  m_per_scene := 3
  m_per_frame := 4
  m_per_material := 5
  m_per_entity := 6
  m_standard_rs := 7
  m_atmosphere_rs := 8
  m_standard_ds := 9
  m_atmosphere_ds := 10
  m_quad_vao := 11
  m_quad_vbo := 12
  m_quad_layout := 13
  m_cube_vao := 14
  m_cube_vbo := 15
  m_cube_layout := 16
  m_per_frame_uniforms := default
  m_per_scene_uniforms := default
  m_per_entity_uniforms := fun _ => default
  m_cube_map_vs := 17
  m_cube_map_fs := 18
  m_cube_map_program := 19
  m_brdfLUT := 20
  m_program_cache := ∅
  m_shader_cache := ∅

/-- A mesh with one submesh that has no material. -/
def sample_mesh : Mesh := ⟨30, [⟨6, 0, 0, none⟩]⟩

/-- An entity with a program and `sample_mesh`, no override material. -/
def sample_entity : Entity :=
  { (default : Entity) with m_program := 40, m_mesh := some sample_mesh }

/-- A scene holding `sample_entity` only. -/
def sample_scene : Scene := ⟨[sample_entity], 50, 51, 52⟩

/-- A stand-in for the `glm::mat4` product used at concrete inputs. -/
def sample_mul : Mat4 → Mat4 → Mat4 := fun a _ => a

/-- Every command of `l` satisfying `p` stands at an earlier position than every command of `l`
satisfying `q`. -/
def Precedes (p q : Cmd → Bool) (l : List Cmd) : Prop :=
  ∀ (i j : Nat) (c d : Cmd), l[i]? = some c → l[j]? = some d → p c = true → q d = true → i < j

/-- The draw call of the atmosphere pass, `draw(0, 36)`. -/
def is_atmosphere_draw : Cmd → Bool
  | Cmd.draw 0 36 => true
  | _ => false

/-- The framebuffer bind, the clear and the indexed draws of the opaque scene pass. -/
def is_opaque_pass_cmd : Cmd → Bool
  | Cmd.bind_framebuffer _ => true
  | Cmd.clear_framebuffer _ _ => true
  | Cmd.draw_indexed_base_vertex _ _ _ => true
  | _ => false

/-- The kinds of call the entity loop of `render_scene` can make. -/
def is_entity_loop_cmd : Cmd → Bool
  | Cmd.bind_shader_program _ => true
  | Cmd.bind_rasterizer_state _ => true
  | Cmd.bind_depth_stencil_state _ => true
  | Cmd.bind_uniform_buffer _ _ _ => true
  | Cmd.bind_uniform_buffer_range _ _ _ _ _ => true
  | Cmd.bind_sampler_state _ _ _ => true
  | Cmd.bind_texture _ _ _ => true
  | Cmd.bind_vertex_array _ => true
  | Cmd.set_primitive_type _ => true
  | Cmd.draw_indexed_base_vertex _ _ _ => true
  | _ => false

/-- A call of the device's `create_shader`. -/
def is_create_shader : Cmd → Bool
  | Cmd.create_shader _ _ => true
  | _ => false

/-- A call of the device's `clear_framebuffer`. -/
def is_clear_framebuffer : Cmd → Bool
  | Cmd.clear_framebuffer _ _ => true
  | _ => false

/-- A call of the device's `draw_indexed_base_vertex`. -/
def is_draw_indexed : Cmd → Bool
  | Cmd.draw_indexed_base_vertex _ _ _ => true
  | _ => false

/-- A texture or sampler binding on one of the material slots 0, 1, 2, 3. -/
def is_material_slot_bind : Cmd → Bool
  | Cmd.bind_texture _ _ slot => decide (slot < 4)
  | Cmd.bind_sampler_state _ _ slot => decide (slot < 4)
  | _ => false


/-- Byte size of the per-entity device buffer, `per_entity_ubo_desc.size` of the constructor
(renderer.cpp 32): `1024 * sizeof(PerEntityUniforms)`. -/
def per_entity_ubo_size : Nat := 1024 * sizeof_PerEntityUniforms

theorem texture_cmds_frame (r : Renderer) (sc : Option Scene) (d : RenderDevice) (u : PerFrameUniforms)
    (a : Nat → PerEntityUniforms) (t : Ptr) (slot : Nat) :
    texture_cmds { r with m_scene := sc, m_device := d, m_per_frame_uniforms := u, m_per_entity_uniforms := a } t slot
      = texture_cmds r t slot := rfl

theorem submesh_cmds_frame (r : Renderer) (sc : Option Scene) (d : RenderDevice) (u : PerFrameUniforms)
    (a : Nat → PerEntityUniforms) (i : Nat) (e : Entity) (m : Mesh) (sub : SubMesh) :
    submesh_cmds { r with m_scene := sc, m_device := d, m_per_frame_uniforms := u, m_per_entity_uniforms := a } i e m sub
      = submesh_cmds r i e m sub := by
  cases h : resolve_material sub e <;> simp [submesh_cmds, material_cmds, h, texture_cmds]

theorem submesh_loop_frame (r : Renderer) (sc : Option Scene) (d : RenderDevice) (u : PerFrameUniforms)
    (a : Nat → PerEntityUniforms) (i : Nat) (e : Entity) (m : Mesh) (subs : List SubMesh) :
    submesh_loop { r with m_scene := sc, m_device := d, m_per_frame_uniforms := u, m_per_entity_uniforms := a } i e m subs
      = submesh_loop r i e m subs := by
  induction subs with
  | nil => rfl
  | cons sub rest ih => simp only [submesh_loop, ih, submesh_cmds_frame]

theorem entity_cmds_frame (r : Renderer) (sc : Option Scene) (d : RenderDevice) (u : PerFrameUniforms)
    (a : Nat → PerEntityUniforms) (s : Scene) (i : Nat) (e : Entity) :
    entity_cmds { r with m_scene := sc, m_device := d, m_per_frame_uniforms := u, m_per_entity_uniforms := a } s i e
      = entity_cmds r s i e := by
  unfold entity_cmds
  cases e.m_mesh with
  | none => rfl
  | some mesh =>
    simp only [submesh_loop_frame]
    rfl

theorem entity_loop_frame (r : Renderer) (sc : Option Scene) (d : RenderDevice) (u : PerFrameUniforms)
    (a : Nat → PerEntityUniforms) (s : Scene) (es : List Entity) (i : Nat) :
    entity_loop { r with m_scene := sc, m_device := d, m_per_frame_uniforms := u, m_per_entity_uniforms := a } s i es
      = entity_loop r s i es := by
  induction es generalizing i with
  | nil => rfl
  | cons e rest ih => simp only [entity_loop, ih, entity_cmds_frame]

theorem render_scene_cmds_frame (r : Renderer) (sc : Option Scene) (d : RenderDevice) (u : PerFrameUniforms)
    (a : Nat → PerEntityUniforms) (s : Scene) :
    render_scene_cmds { r with m_scene := sc, m_device := d, m_per_frame_uniforms := u, m_per_entity_uniforms := a } s
      = render_scene_cmds r s := by
  simp only [render_scene_cmds, entity_loop_frame]
  rfl

theorem per_entity_loop_stores (mul : Mat4 → Mat4 → Mat4) (camera : Camera) (es : List Entity) :
    ∀ (i : Nat) (a : PerEntityArray),
      (per_entity_loop mul camera es i a).stores = a.stores ++ List.range' i es.length := by
  induction es with
  | nil => intro i a; simp [per_entity_loop]
  | cons e rest ih =>
    intro i a
    simp only [per_entity_loop, ih, PerEntityArray.assign, List.length_cons, List.range'_succ,
      List.append_assoc, List.singleton_append]

theorem per_entity_loop_cells_out (mul : Mat4 → Mat4 → Mat4) (camera : Camera) (es : List Entity) :
    ∀ (i : Nat) (a : PerEntityArray) (k : Nat), k < i ∨ i + es.length ≤ k →
      (per_entity_loop mul camera es i a).cells k = a.cells k := by
  induction es with
  | nil => intro i a k _; rfl
  | cons e rest ih =>
    intro i a k hk
    simp only [List.length_cons] at hk
    simp only [per_entity_loop]
    rw [ih (i + 1) _ k (by omega)]
    have hne : k ≠ i := by omega
    simp only [PerEntityArray.assign, Function.update_noteq hne]

theorem per_entity_loop_cells_in (mul : Mat4 → Mat4 → Mat4) (camera : Camera) (es : List Entity) :
    ∀ (i : Nat) (a : PerEntityArray) (k : Nat) (e : Entity), i ≤ k → es[k - i]? = some e →
      (per_entity_loop mul camera es i a).cells k = update_entity_record mul camera e (a.cells k) := by
  induction es with
  | nil => intro i a k e _ h; simp at h
  | cons e0 rest ih =>
    intro i a k e hik h
    simp only [per_entity_loop]
    by_cases hk : k = i
    · subst hk
      simp only [Nat.sub_self, List.getElem?_cons_zero, Option.some.injEq] at h
      subst h
      rw [per_entity_loop_cells_out mul camera rest (k + 1) _ k (Or.inl (Nat.lt_succ_self k))]
      simp only [PerEntityArray.assign, Function.update_same]
    · have hlt : i + 1 ≤ k := by omega
      have hidx : k - i = (k - (i + 1)) + 1 := by omega
      rw [hidx, List.getElem?_cons_succ] at h
      rw [ih (i + 1) _ k e hlt h]
      simp only [PerEntityArray.assign, Function.update_noteq hk]

theorem update_per_entity_eq (mul : Mat4 → Mat4 → Mat4) (camera : Camera) (es : List Entity)
    (i : Nat) (arr : Nat → PerEntityUniforms) (h : i + es.length ≤ PER_ENTITY_CAPACITY) :
    update_per_entity mul camera es i arr =
      some (per_entity_loop mul camera es i ⟨arr, []⟩).cells := by
  unfold update_per_entity
  rw [if_pos]
  rw [per_entity_loop_stores, List.all_eq_true]
  intro j hj
  simp only [List.nil_append, List.mem_range'_1] at hj
  exact decide_eq_true (by omega)

theorem update_per_entity_some (mul : Mat4 → Mat4 → Mat4) (camera : Camera) (es : List Entity) :
    ∀ (i : Nat) (arr : Nat → PerEntityUniforms), i + es.length ≤ PER_ENTITY_CAPACITY →
      ∃ arr', update_per_entity mul camera es i arr = some arr' :=
  fun i arr h => ⟨_, update_per_entity_eq mul camera es i arr h⟩

theorem render_eq (mul : Mat4 → Mat4 → Mat4) (maps : MapReplies) (r : Renderer) (camera : Camera)
    (scene : Scene) (hs : r.m_scene = some scene)
    (hN : scene.entity_count ≤ PER_ENTITY_CAPACITY) :
    ∃ arr, update_per_entity mul camera scene.entities 0 r.m_per_entity_uniforms = some arr ∧
      render mul maps r camera = some
        { r with
          m_per_frame_uniforms := update_per_frame r.m_per_frame_uniforms camera
          m_per_entity_uniforms := arr
          m_device :=
            { trace := r.m_device.trace ++
                (upload_cmds maps r scene.entity_count ++
                  (render_scene_cmds r scene ++ render_atmosphere_cmds r scene))
              per_frame_mem :=
                if maps.per_frame then update_per_frame r.m_per_frame_uniforms camera
                else r.m_device.per_frame_mem
              per_scene_mem :=
                if maps.per_scene then r.m_per_scene_uniforms else r.m_device.per_scene_mem
              per_entity_mem :=
                if maps.per_entity then
                  memcpy_records r.m_device.per_entity_mem arr
                    (sizeof_PerEntityUniforms * scene.entity_count)
                else r.m_device.per_entity_mem } } := by
  obtain ⟨arr, harr⟩ := update_per_entity_some mul camera scene.entities 0 r.m_per_entity_uniforms
    (by simpa [Scene.entity_count] using hN)
  refine ⟨arr, harr, ?_⟩
  obtain ⟨pf, ps, pe⟩ := maps
  cases pf <;> cases ps <;> cases pe <;>
    simp [render, hs, harr, upload_per_frame, upload_per_scene, upload_per_entity, render_scene,
      render_atmosphere, Renderer.issue, RenderDevice.issue, upload_cmds, Option.bind,
      render_scene_cmds_frame, render_atmosphere_cmds]

theorem render_spec (mul : Mat4 → Mat4 → Mat4) (maps : MapReplies) (r : Renderer) (camera : Camera)
    (scene : Scene) (hs : r.m_scene = some scene)
    (hN : scene.entity_count ≤ PER_ENTITY_CAPACITY) :
    ∃ arr r', update_per_entity mul camera scene.entities 0 r.m_per_entity_uniforms = some arr ∧
      render mul maps r camera = some r' ∧
      r'.m_device.trace = r.m_device.trace ++
        (upload_cmds maps r scene.entity_count ++
          (render_scene_cmds r scene ++ render_atmosphere_cmds r scene)) ∧
      r'.m_per_frame_uniforms = update_per_frame r.m_per_frame_uniforms camera ∧
      r'.m_per_entity_uniforms = arr ∧
      r'.m_device.per_frame_mem =
        (if maps.per_frame then update_per_frame r.m_per_frame_uniforms camera
         else r.m_device.per_frame_mem) ∧
      r'.m_device.per_scene_mem =
        (if maps.per_scene then r.m_per_scene_uniforms else r.m_device.per_scene_mem) ∧
      r'.m_device.per_entity_mem =
        (if maps.per_entity then
          memcpy_records r.m_device.per_entity_mem arr (sizeof_PerEntityUniforms * scene.entity_count)
         else r.m_device.per_entity_mem) := by
  obtain ⟨arr, harr, hr⟩ := render_eq mul maps r camera scene hs hN
  exact ⟨arr, _, harr, hr, rfl, rfl, rfl, rfl, rfl, rfl⟩

theorem submesh_loop_append (r : Renderer) (i : Nat) (e : Entity) (m : Mesh)
    (a b : List SubMesh) :
    submesh_loop r i e m (a ++ b) = submesh_loop r i e m a ++ submesh_loop r i e m b := by
  induction a with
  | nil => rfl
  | cons sub rest ih =>
    show submesh_cmds r i e m sub ++ submesh_loop r i e m (rest ++ b) = _
    rw [ih]
    simp only [submesh_loop, List.append_assoc]

theorem entity_loop_append (r : Renderer) (s : Scene) (a b : List Entity) :
    ∀ i : Nat, entity_loop r s i (a ++ b) = entity_loop r s i a ++ entity_loop r s (i + a.length) b := by
  induction a with
  | nil => intro i; simp [entity_loop]
  | cons e rest ih =>
    intro i
    show entity_cmds r s i e ++ entity_loop r s (i + 1) (rest ++ b) = _
    rw [ih]
    have hlen : i + 1 + rest.length = i + (e :: rest).length := by
      simp only [List.length_cons]; omega
    rw [hlen]
    simp only [entity_loop, List.append_assoc]

theorem entity_loop_scene (r : Renderer) (s s' : Scene)
    (h1 : s'.irradiance_map = s.irradiance_map) (h2 : s'.prefiltered_map = s.prefiltered_map)
    (es : List Entity) : ∀ i : Nat, entity_loop r s' i es = entity_loop r s i es := by
  induction es with
  | nil => intro i; rfl
  | cons e rest ih =>
    intro i
    simp only [entity_loop, ih, entity_cmds, entity_state_cmds, h1, h2]


theorem texture_cmds_kind (r : Renderer) (t : Ptr) (slot : Nat) :
    ∀ c ∈ texture_cmds r t slot, is_entity_loop_cmd c = true := by
  intro c hc
  unfold texture_cmds at hc
  split at hc
  · simp at hc
  · simp only [List.mem_cons, List.mem_singleton, List.not_mem_nil, or_false] at hc
    rcases hc with h | h <;> subst h <;> rfl

theorem submesh_cmds_kind (r : Renderer) (i : Nat) (e : Entity) (m : Mesh) (sub : SubMesh) :
    ∀ c ∈ submesh_cmds r i e m sub, is_entity_loop_cmd c = true := by
  intro c hc
  unfold submesh_cmds at hc
  simp only [List.mem_append, List.mem_cons, List.mem_singleton, List.not_mem_nil, or_false] at hc
  rcases hc with (h | h) | h | h
  · subst h; rfl
  · unfold material_cmds at h
    split at h
    · simp at h
    · simp only [List.mem_append] at h
      rcases h with ((h | h) | h) | h <;> exact texture_cmds_kind _ _ _ c h
  · subst h; rfl
  · subst h; rfl

theorem submesh_loop_kind (r : Renderer) (i : Nat) (e : Entity) (m : Mesh) (subs : List SubMesh) :
    ∀ c ∈ submesh_loop r i e m subs, is_entity_loop_cmd c = true := by
  induction subs with
  | nil => intro c hc; simp [submesh_loop] at hc
  | cons sub rest ih =>
    intro c hc
    simp only [submesh_loop, List.mem_append] at hc
    rcases hc with h | h
    · exact submesh_cmds_kind r i e m sub c h
    · exact ih c h

theorem entity_cmds_kind (r : Renderer) (s : Scene) (i : Nat) (e : Entity) :
    ∀ c ∈ entity_cmds r s i e, is_entity_loop_cmd c = true := by
  intro c hc
  unfold entity_cmds at hc
  split at hc
  · simp at hc
  · split at hc
    · simp at hc
    · simp only [List.mem_append] at hc
      rcases hc with h | h
      · simp only [entity_state_cmds, List.mem_cons, List.mem_singleton, List.not_mem_nil,
          or_false] at h
        rcases h with h | h | h | h | h | h | h | h | h | h | h | h <;> subst h <;> rfl
      · exact submesh_loop_kind _ _ _ _ _ c h

theorem entity_loop_kind (r : Renderer) (s : Scene) (es : List Entity) :
    ∀ (i : Nat), ∀ c ∈ entity_loop r s i es, is_entity_loop_cmd c = true := by
  induction es with
  | nil => intro i c hc; simp [entity_loop] at hc
  | cons e rest ih =>
    intro i c hc
    simp only [entity_loop, List.mem_append] at hc
    rcases hc with h | h
    · exact entity_cmds_kind r s i e c h
    · exact ih (i + 1) c h

theorem precedes_append (p q : Cmd → Bool) (a b : List Cmd)
    (ha : ∀ c ∈ a, q c = false) (hb : ∀ c ∈ b, p c = false) : Precedes p q (a ++ b) := by
  intro i j c d hi hj hp hq
  have hi' : i < a.length := by
    by_contra hlt
    have hge : a.length ≤ i := by omega
    rw [List.getElem?_append_right hge] at hi
    have hmem : c ∈ b := List.getElem?_mem hi
    rw [hb c hmem] at hp
    exact Bool.noConfusion hp
  have hj' : a.length ≤ j := by
    by_contra hlt
    have hlt' : j < a.length := by omega
    rw [List.getElem?_append_left hlt'] at hj
    have hmem : d ∈ a := List.getElem?_mem hj
    rw [ha d hmem] at hq
    exact Bool.noConfusion hq
  omega

theorem upload_cmds_kind (maps : MapReplies) (r : Renderer) (n : Nat) :
    ∀ c ∈ upload_cmds maps r n,
      is_atmosphere_draw c = false ∧ is_clear_framebuffer c = false ∧ is_draw_indexed c = false := by
  obtain ⟨pf, ps, pe⟩ := maps
  cases pf <;> cases ps <;> cases pe <;>
    simp [upload_cmds, is_atmosphere_draw, is_clear_framebuffer, is_draw_indexed]


theorem entity_loop_range (r : Renderer) (s : Scene) (es : List Entity) :
    ∀ (k : Nat) (b : Ptr) (st : ShaderType) (sl off len : Nat),
      Cmd.bind_uniform_buffer_range b st sl off len ∈ entity_loop r s k es →
      ∃ i, k ≤ i ∧ i < k + es.length ∧ off = i * sizeof_PerEntityUniforms ∧
        len = sizeof_PerEntityUniforms ∧ b = r.m_per_entity ∧ st = ShaderType.VERTEX ∧ sl = 1 := by
  induction es with
  | nil => intro k b st sl off len h; simp [entity_loop] at h
  | cons e rest ih =>
    intro k b st sl off len h
    simp only [entity_loop, List.mem_append] at h
    rcases h with h | h
    · refine ⟨k, Nat.le_refl k, by simp, ?_⟩
      unfold entity_cmds at h
      split at h
      · simp at h
      · rename_i mesh _
        split at h
        · simp at h
        · simp only [List.mem_append] at h
          rcases h with h | h
          · simp [entity_state_cmds] at h
          · generalize mesh.sub_meshes = subs at h
            induction subs with
            | nil => simp [submesh_loop] at h
            | cons sub more ihs =>
              simp only [submesh_loop, List.mem_append] at h
              rcases h with h | h
              · simp only [submesh_cmds, List.mem_append, List.mem_cons, List.mem_singleton,
                  List.not_mem_nil, or_false] at h
                rcases h with (h | h) | h | h
                · exact Cmd.noConfusion h
                · unfold material_cmds at h
                  split at h
                  · simp at h
                  · simp only [List.mem_append] at h
                    rcases h with ((h | h) | h) | h <;>
                      (unfold texture_cmds at h; split at h <;> simp at h)
                · injection h with h1 h2 h3 h4 h5
                  exact ⟨h4, h5, h1, h2, h3⟩
                · exact Cmd.noConfusion h
              · exact ihs h
    · obtain ⟨i, h1, h2, h3⟩ := ih (k + 1) b st sl off len h
      exact ⟨i, by omega, by simp only [List.length_cons]; omega, h3⟩

/-- C1 (counterexample): on the one-entity sample scene the frame clears the framebuffer at trace
position 11, issues the indexed draw at position 26 and the atmosphere draw `draw(0, 36)` last, at
position 35; the atmosphere draw does not precede the opaque pass. -/
theorem C1_atmosphere_first_counterexample :
    ∃ r', render sample_mul ⟨true, true, true⟩ (set_scene sample_renderer (some sample_scene))
        default = some r' ∧
      r'.m_device.trace[11]? = some (Cmd.clear_framebuffer ClearTarget.ALL clear_color) ∧
      r'.m_device.trace[26]? = some (Cmd.draw_indexed_base_vertex 6 0 0) ∧
      r'.m_device.trace[35]? = some (Cmd.draw 0 36) ∧
      ¬ Precedes is_atmosphere_draw is_opaque_pass_cmd r'.m_device.trace := by
  refine ⟨_, rfl, by decide, by decide, by decide, ?_⟩
  intro h
  have h35 := h 35 11 (Cmd.draw 0 36) (Cmd.clear_framebuffer ClearTarget.ALL clear_color)
    (by decide) (by decide) rfl rfl
  omega

/-- C1 (amended): on a renderer whose scene is set and holds at most 1024 entities, `render`
returns, and the commands of the frame are the uploads, then the opaque scene pass, then the
atmosphere pass: the framebuffer bind, the clear and every `draw_indexed_base_vertex` of the frame
precede the atmosphere draw `draw(0, 36)`, which is issued with the cube-map program bound. -/
theorem C1_opaque_pass_before_atmosphere (mul : Mat4 → Mat4 → Mat4) (maps : MapReplies)
    (r : Renderer) (camera : Camera) (scene : Scene) (hs : r.m_scene = some scene)
    (hN : scene.entity_count ≤ PER_ENTITY_CAPACITY) :
    ∃ r' frame, render mul maps r camera = some r' ∧
      r'.m_device.trace = r.m_device.trace ++ frame ∧
      frame = upload_cmds maps r scene.entity_count ++
        (render_scene_cmds r scene ++ render_atmosphere_cmds r scene) ∧
      Precedes is_opaque_pass_cmd is_atmosphere_draw frame ∧
      Cmd.bind_framebuffer nullptr ∈ frame ∧
      Cmd.clear_framebuffer ClearTarget.ALL clear_color ∈ frame ∧
      Cmd.draw 0 36 ∈ frame ∧
      (∃ pre, frame = pre ++ [Cmd.bind_shader_program r.m_cube_map_program,
        Cmd.bind_uniform_buffer r.m_per_frame ShaderType.VERTEX 0,
        Cmd.bind_sampler_state r.m_bilinear_sampler ShaderType.FRAGMENT 0,
        Cmd.bind_texture scene.env_map ShaderType.FRAGMENT 0,
        Cmd.bind_vertex_array r.m_cube_vao,
        Cmd.set_primitive_type PrimitiveType.TRIANGLES,
        Cmd.draw 0 36]) := by
  obtain ⟨arr, r', -, hr, htrace, -⟩ := render_spec mul maps r camera scene hs hN
  refine ⟨r', _, hr, htrace, rfl, ?_, ?_, ?_, ?_, ?_⟩
  · rw [← List.append_assoc]
    apply precedes_append
    · intro c hc
      rcases List.mem_append.mp hc with h | h
      · exact (upload_cmds_kind maps r _ c h).1
      · simp only [render_scene_cmds, List.mem_append] at h
        rcases h with h | h
        · simp only [render_scene_begin, List.mem_cons, List.mem_singleton, List.not_mem_nil,
            or_false] at h
          rcases h with h | h | h <;> subst h <;> rfl
        · have hk := entity_loop_kind r scene scene.entities 0 c h
          cases c <;> first | rfl | exact Bool.noConfusion hk
    · intro c hc
      simp only [render_atmosphere_cmds, List.mem_cons, List.mem_singleton, List.not_mem_nil,
        or_false] at hc
      rcases hc with h | h | h | h | h | h | h | h | h <;> subst h <;> rfl
  · simp [render_scene_cmds, render_scene_begin]
  · simp [render_scene_cmds, render_scene_begin]
  · simp [render_atmosphere_cmds]
  · refine ⟨upload_cmds maps r scene.entity_count ++ (render_scene_cmds r scene ++
      [Cmd.bind_rasterizer_state r.m_atmosphere_rs,
       Cmd.bind_depth_stencil_state r.m_atmosphere_ds]), ?_⟩
    simp [render_atmosphere_cmds]

/-- C1 (witness): the amended statement at the one-entity sample scene. -/
theorem C1_opaque_pass_before_atmosphere_witness :
    (set_scene sample_renderer (some sample_scene)).m_scene = some sample_scene ∧
    sample_scene.entity_count ≤ PER_ENTITY_CAPACITY ∧
    ∃ r' frame, render sample_mul ⟨true, true, true⟩
        (set_scene sample_renderer (some sample_scene)) default = some r' ∧
      r'.m_device.trace = (set_scene sample_renderer (some sample_scene)).m_device.trace ++ frame ∧
      Precedes is_opaque_pass_cmd is_atmosphere_draw frame ∧
      Cmd.draw 0 36 ∈ frame := by
  refine ⟨rfl, by decide, ?_⟩
  obtain ⟨r', frame, h1, h2, -, h4, -, -, h7, -⟩ :=
    C1_opaque_pass_before_atmosphere sample_mul ⟨true, true, true⟩
      (set_scene sample_renderer (some sample_scene)) default sample_scene rfl (by decide)
  exact ⟨r', frame, h1, h2, h4, h7⟩


/-- C2: when the source text is readable on both calls, two successive `load_shader` calls with the
same path return the same handle, the second call leaves the renderer (device trace and cache)
untouched, the two calls together issue at most one `create_shader`, and afterwards the shader
cache holds exactly one entry with that path as key, mapped to the returned handle. -/
theorem C2_load_shader_twice_same_handle (ReadText1 ReadText2 : String → Option String)
    (create1 create2 : String → Int → Ptr) (r : Renderer) (type : Int) (path : String)
    (mat1 mat2 : Option Material)
    (h1 : (ReadText1 path).isSome = true) (h2 : (ReadText2 path).isSome = true) :
    (load_shader ReadText2 create2 (load_shader ReadText1 create1 r type path mat1).2 type path mat2).1
        = (load_shader ReadText1 create1 r type path mat1).1 ∧
    (load_shader ReadText2 create2 (load_shader ReadText1 create1 r type path mat1).2 type path mat2).2
        = (load_shader ReadText1 create1 r type path mat1).2 ∧
    (∃ new : List Cmd,
      (load_shader ReadText2 create2 (load_shader ReadText1 create1 r type path mat1).2
          type path mat2).2.m_device.trace = r.m_device.trace ++ new ∧
      (new.filter is_create_shader).length ≤ 1) ∧
    (load_shader ReadText2 create2 (load_shader ReadText1 create1 r type path mat1).2
        type path mat2).2.m_shader_cache.keys.count path = 1 ∧
    (load_shader ReadText2 create2 (load_shader ReadText1 create1 r type path mat1).2
        type path mat2).2.m_shader_cache.lookup path
        = some (load_shader ReadText1 create1 r type path mat1).1 := by
  obtain ⟨src1, hsrc1⟩ := Option.isSome_iff_exists.mp h1
  obtain ⟨src2, hsrc2⟩ := Option.isSome_iff_exists.mp h2
  cases hc : r.m_shader_cache.lookup path with
  | none =>
    have hfirst : load_shader ReadText1 create1 r type path mat1 =
        (create1 src1 type, { r.issue [Cmd.create_shader src1 type] with
          m_shader_cache := r.m_shader_cache.insert path (create1 src1 type) }) := by
      simp [load_shader, hsrc1, hc]
    rw [hfirst]
    have hsecond : load_shader ReadText2 create2 { r.issue [Cmd.create_shader src1 type] with
          m_shader_cache := r.m_shader_cache.insert path (create1 src1 type) } type path mat2 =
        (create1 src1 type, { r.issue [Cmd.create_shader src1 type] with
          m_shader_cache := r.m_shader_cache.insert path (create1 src1 type) }) := by
      simp [load_shader, hsrc2, AList.lookup_insert]
    simp only [hsecond]
    refine ⟨trivial, trivial, ⟨[Cmd.create_shader src1 type], rfl, by simp [is_create_shader]⟩, ?_, ?_⟩
    · apply List.count_eq_one_of_mem (AList.keys_nodup _)
      rw [← AList.mem_keys, AList.mem_insert]
      exact Or.inl rfl
    · exact AList.lookup_insert _
  | some cached =>
    have hfirst : load_shader ReadText1 create1 r type path mat1 = (cached, r) := by
      simp [load_shader, hsrc1, hc]
    rw [hfirst]
    have hsecond : load_shader ReadText2 create2 r type path mat2 = (cached, r) := by
      simp [load_shader, hsrc2, hc]
    simp only [hsecond]
    refine ⟨trivial, trivial, ⟨[], by simp, by simp⟩, ?_, hc⟩
    apply List.count_eq_one_of_mem (AList.keys_nodup _)
    rw [← AList.mem_keys, ← AList.lookup_isSome, hc]
    rfl

/-- C2 (witness): loading "shader/cubemap_vs.glsl" twice into the empty cache, the device answering
handle 7 and then handle 8. -/
theorem C2_load_shader_twice_same_handle_witness :
    ((fun _ : String => some "void main();") "shader/cubemap_vs.glsl").isSome = true ∧
    (load_shader (fun _ => some "void main();") (fun _ _ => 8)
      (load_shader (fun _ => some "void main();") (fun _ _ => 7) sample_renderer 0
        "shader/cubemap_vs.glsl" none).2 0 "shader/cubemap_vs.glsl" none).1 = 7 ∧
    (load_shader (fun _ => some "void main();") (fun _ _ => 8)
      (load_shader (fun _ => some "void main();") (fun _ _ => 7) sample_renderer 0
        "shader/cubemap_vs.glsl" none).2 0 "shader/cubemap_vs.glsl" none).2.m_shader_cache.keys.count
        "shader/cubemap_vs.glsl" = 1 := by
  have h := C2_load_shader_twice_same_handle (fun _ => some "void main();")
    (fun _ => some "void main();") (fun _ _ => 7) (fun _ _ => 8) sample_renderer 0
    "shader/cubemap_vs.glsl" none none rfl rfl
  exact ⟨rfl, h.1.trans (by decide), h.2.2.2.1⟩

/-- C3: a second `load_program` call with the same `combined_name` returns the handle of the first
call whatever the two stage lists and counts are; it issues no device call and leaves the renderer,
in particular the program cache, unchanged.  Afterwards the program cache holds exactly one entry
with that key, mapped to the returned handle.  On a cache miss the first call returns what the
device's `create_shader_program` answers for the first stage list and issues that one call; on a
hit it returns the cached handle and changes nothing.  The keys "ab" ++ "c" and "a" ++ "bc" are one
such pair and resolve to one cached program. -/
theorem C3_load_program_same_key (create1 create2 : List Ptr → Nat → Ptr) (r : Renderer)
    (combined_name : String) (count1 count2 : Nat) (shaders1 shaders2 : List Ptr) :
    (load_program create2 (load_program create1 r combined_name count1 shaders1).2
        combined_name count2 shaders2).1
      = (load_program create1 r combined_name count1 shaders1).1 ∧
    (load_program create2 (load_program create1 r combined_name count1 shaders1).2
        combined_name count2 shaders2).2.m_device.trace
      = (load_program create1 r combined_name count1 shaders1).2.m_device.trace ∧
    (load_program create2 (load_program create1 r combined_name count1 shaders1).2
        combined_name count2 shaders2).2.m_program_cache
      = (load_program create1 r combined_name count1 shaders1).2.m_program_cache ∧
    (load_program create2 (load_program create1 r combined_name count1 shaders1).2
        combined_name count2 shaders2).2
      = (load_program create1 r combined_name count1 shaders1).2 ∧
    (load_program create2 (load_program create1 r ("ab" ++ "c") count1 shaders1).2
        ("a" ++ "bc") count2 shaders2)
      = ((load_program create1 r ("ab" ++ "c") count1 shaders1).1,
         (load_program create1 r ("ab" ++ "c") count1 shaders1).2) ∧
    (load_program create2 (load_program create1 r combined_name count1 shaders1).2
        combined_name count2 shaders2).2.m_program_cache.lookup combined_name
      = some (load_program create1 r combined_name count1 shaders1).1 ∧
    (load_program create2 (load_program create1 r combined_name count1 shaders1).2
        combined_name count2 shaders2).2.m_program_cache.keys.count combined_name = 1 ∧
    (r.m_program_cache.lookup combined_name = none →
      (load_program create1 r combined_name count1 shaders1).1 = create1 shaders1 count1 ∧
      (load_program create2 (load_program create1 r combined_name count1 shaders1).2
          combined_name count2 shaders2).2.m_device.trace
        = r.m_device.trace ++ [Cmd.create_shader_program shaders1 count1]) ∧
    (∀ cached : Ptr, r.m_program_cache.lookup combined_name = some cached →
      (load_program create1 r combined_name count1 shaders1).1 = cached ∧
      (load_program create2 (load_program create1 r combined_name count1 shaders1).2
          combined_name count2 shaders2).2 = r) ∧
    (load_program create2 (load_program create1 r ("ab" ++ "c") count1 shaders1).2
        ("a" ++ "bc") count2 shaders2).2.m_program_cache.lookup ("a" ++ "bc")
      = some (load_program create1 r ("ab" ++ "c") count1 shaders1).1 := by
  have key : ∀ name : String,
      load_program create2 (load_program create1 r name count1 shaders1).2 name count2 shaders2
        = ((load_program create1 r name count1 shaders1).1,
           (load_program create1 r name count1 shaders1).2) := by
    intro name
    cases hc : r.m_program_cache.lookup name with
    | none =>
      have hfirst : load_program create1 r name count1 shaders1 =
          (create1 shaders1 count1, { r.issue [Cmd.create_shader_program shaders1 count1] with
            m_program_cache := r.m_program_cache.insert name (create1 shaders1 count1) }) := by
        simp [load_program, hc]
      rw [hfirst]
      simp [load_program, AList.lookup_insert]
    | some cached =>
      have hfirst : load_program create1 r name count1 shaders1 = (cached, r) := by
        simp [load_program, hc]
      rw [hfirst]
      simp [load_program, hc]
  have cached_after : ∀ name : String,
      (load_program create1 r name count1 shaders1).2.m_program_cache.lookup name
        = some (load_program create1 r name count1 shaders1).1 := by
    intro name
    cases hc : r.m_program_cache.lookup name with
    | none =>
      have hfirst : load_program create1 r name count1 shaders1 =
          (create1 shaders1 count1, { r.issue [Cmd.create_shader_program shaders1 count1] with
            m_program_cache := r.m_program_cache.insert name (create1 shaders1 count1) }) := by
        simp [load_program, hc]
      rw [hfirst]
      exact AList.lookup_insert _
    | some cached =>
      have hfirst : load_program create1 r name count1 shaders1 = (cached, r) := by
        simp [load_program, hc]
      rw [hfirst]
      exact hc
  have hab : ("a" ++ "bc" : String) = "ab" ++ "c" := by decide
  refine ⟨?_, ?_, ?_, ?_, ?_, ?_, ?_, ?_, ?_, ?_⟩
  · rw [key]
  · rw [key]
  · rw [key]
  · rw [key]
  · rw [hab]; exact key _
  · rw [key]; exact cached_after _
  · rw [key]
    apply List.count_eq_one_of_mem (AList.keys_nodup _)
    rw [← AList.mem_keys, ← AList.lookup_isSome, cached_after]
    rfl
  · intro hc
    rw [key]
    have hfirst : load_program create1 r combined_name count1 shaders1 =
        (create1 shaders1 count1, { r.issue [Cmd.create_shader_program shaders1 count1] with
          m_program_cache := r.m_program_cache.insert combined_name (create1 shaders1 count1) }) := by
      simp [load_program, hc]
    rw [hfirst]
    exact ⟨rfl, rfl⟩
  · intro cached hc
    rw [key]
    have hfirst : load_program create1 r combined_name count1 shaders1 = (cached, r) := by
      simp [load_program, hc]
    rw [hfirst]
    exact ⟨rfl, rfl⟩
  · rw [hab, key]; exact cached_after _

/-- C3 (witness): on the empty program cache, with the device answering handle 7 to the first call
and handle 8 had it been asked again, the key "ab" ++ "c" with stages 1, 2 and then the key
"a" ++ "bc" with stage 3 both give handle 7, one `create_shader_program` is issued, and the cache
maps "abc" to 7. -/
theorem C3_load_program_same_key_witness :
    (load_program (fun _ _ => 7) sample_renderer ("ab" ++ "c") 2 [1, 2]).1 = 7 ∧
    (load_program (fun _ _ => 8)
      (load_program (fun _ _ => 7) sample_renderer ("ab" ++ "c") 2 [1, 2]).2
      ("a" ++ "bc") 1 [3]).1 = 7 ∧
    (load_program (fun _ _ => 8)
      (load_program (fun _ _ => 7) sample_renderer ("ab" ++ "c") 2 [1, 2]).2
      ("a" ++ "bc") 1 [3]).2.m_device.trace = [Cmd.create_shader_program [1, 2] 2] ∧
    (load_program (fun _ _ => 8)
      (load_program (fun _ _ => 7) sample_renderer ("ab" ++ "c") 2 [1, 2]).2
      ("a" ++ "bc") 1 [3]).2.m_program_cache.lookup "abc" = some 7 := by
  have h := C3_load_program_same_key (fun _ _ => 7) (fun _ _ => 8) sample_renderer "abc" 2 1
    [1, 2] [3]
  refine ⟨by decide, ?_, by decide, ?_⟩
  · exact (congrArg Prod.fst h.2.2.2.2.1).trans (by decide)
  · exact h.2.2.2.2.2.2.2.2.2.trans (by decide)

/-- C4: `sizeof(PerEntityUniforms)` is 64 + 64 + 16 + 112 = 256.  On a renderer whose scene holds
N entities, N at most 1024, a `render` call whose per-entity mapping succeeds returns; its uploads
end with mapping the per-entity buffer, one `memcpy` of N * 256 bytes at offset 0 of the mapping
and the unmap, after which the first N records of the device buffer are those of
`m_per_entity_uniforms` and the others are as before.  For every entity at index i that is drawn
(mesh and program non-null) and every submesh of it, the opaque pass contains, at the place of that
submesh, the binding of the per-entity range at offset i * 256 with length 256 on slot 1 of the
vertex stage, directly followed by the indexed draw of the submesh. -/
theorem C4_per_entity_upload_and_range (mul : Mat4 → Mat4 → Mat4) (pf ps : Bool) (r : Renderer)
    (camera : Camera) (scene : Scene) (hs : r.m_scene = some scene)
    (hN : scene.entity_count ≤ 1024) :
    sizeof_PerEntityUniforms = 64 + 64 + 16 + 112 ∧ sizeof_PerEntityUniforms = 256 ∧
    ∃ r', render mul ⟨pf, ps, true⟩ r camera = some r' ∧
      r'.m_device.trace = r.m_device.trace ++
        (upload_cmds ⟨pf, ps, true⟩ r scene.entity_count ++
          (render_scene_cmds r scene ++ render_atmosphere_cmds r scene)) ∧
      (∃ pre, upload_cmds ⟨pf, ps, true⟩ r scene.entity_count = pre ++
        [Cmd.map_buffer r.m_per_entity BufferMapType.WRITE,
         Cmd.memcpy r.m_per_entity 0 (scene.entity_count * 256),
         Cmd.unmap_buffer r.m_per_entity]) ∧
      (∀ k, r'.m_device.per_entity_mem k =
        if k < scene.entity_count then r'.m_per_entity_uniforms k
        else r.m_device.per_entity_mem k) ∧
      (∀ (before after : List Entity) (e : Entity) (mesh : Mesh) (sb sa : List SubMesh)
          (sub : SubMesh),
        scene.entities = before ++ e :: after → e.m_mesh = some mesh → e.m_program ≠ nullptr →
        mesh.sub_meshes = sb ++ sub :: sa →
        render_scene_cmds r scene =
          (render_scene_begin r ++ entity_loop r scene 0 before ++ entity_state_cmds r scene e ++
            submesh_loop r before.length e mesh sb) ++
          ([Cmd.bind_vertex_array mesh.mesh_vertex_array] ++
            material_cmds r (resolve_material sub e) ++
            [Cmd.bind_uniform_buffer_range r.m_per_entity ShaderType.VERTEX 1
                (before.length * 256) 256,
             Cmd.draw_indexed_base_vertex sub.indexCount sub.baseIndex sub.baseVertex]) ++
          (submesh_loop r before.length e mesh sa ++
            entity_loop r scene (before.length + 1) after)) := by
  have hsz : sizeof_PerEntityUniforms = 256 := by decide
  refine ⟨by decide, hsz, ?_⟩
  obtain ⟨arr, r', -, hr, htrace, -, harr, -, -, hmem⟩ :=
    render_spec mul ⟨pf, ps, true⟩ r camera scene hs hN
  refine ⟨r', hr, htrace, ?_, ?_, ?_⟩
  · refine ⟨[Cmd.map_buffer r.m_per_frame BufferMapType.WRITE] ++
      (if pf then [Cmd.memcpy r.m_per_frame 0 sizeof_PerFrameUniforms,
        Cmd.unmap_buffer r.m_per_frame] else []) ++
      [Cmd.map_buffer r.m_per_scene BufferMapType.WRITE] ++
      (if ps then [Cmd.memcpy r.m_per_scene 0 sizeof_PerSceneUniforms,
        Cmd.unmap_buffer r.m_per_scene] else []), ?_⟩
    simp [upload_cmds, hsz, Nat.mul_comm]
  · intro k
    rw [hmem, harr]
    simp only [if_true, memcpy_records, hsz]
    by_cases hk : k < scene.entity_count
    · have : (k + 1) * 256 ≤ 256 * scene.entity_count := by omega
      simp [hk, this]
    · have : ¬ (k + 1) * 256 ≤ 256 * scene.entity_count := by omega
      simp [hk, this]
  · intro before after e mesh sb sa sub hsplit hmesh hprog hsub
    have hcmds : entity_cmds r scene before.length e =
        entity_state_cmds r scene e ++ submesh_loop r before.length e mesh mesh.sub_meshes := by
      simp [entity_cmds, hmesh, hprog]
    simp only [render_scene_cmds, hsplit, entity_loop_append, entity_loop, hcmds, hsub,
      submesh_loop_append, submesh_loop, submesh_cmds, hsz, Nat.zero_add, List.append_assoc]

/-- C4 (witness): the one-entity sample scene, every mapping succeeding. -/
theorem C4_per_entity_upload_and_range_witness :
    (set_scene sample_renderer (some sample_scene)).m_scene = some sample_scene ∧
    sample_scene.entity_count ≤ 1024 ∧
    ∃ r', render sample_mul ⟨true, true, true⟩ (set_scene sample_renderer (some sample_scene))
        default = some r' ∧
      (∃ pre, upload_cmds ⟨true, true, true⟩ (set_scene sample_renderer (some sample_scene))
          sample_scene.entity_count = pre ++
        [Cmd.map_buffer 6 BufferMapType.WRITE, Cmd.memcpy 6 0 (1 * 256), Cmd.unmap_buffer 6]) := by
  refine ⟨rfl, by decide, ?_⟩
  obtain ⟨-, -, r', h1, -, h3, -⟩ :=
    C4_per_entity_upload_and_range sample_mul true true
      (set_scene sample_renderer (some sample_scene)) default sample_scene rfl (by decide)
  exact ⟨r', h1, h3⟩

/-- C5: the material of a submesh draw is the submesh's own material when that is non-null,
otherwise the override material of the entity (which may be null).  When the result is null the
draw consists of exactly three calls, the vertex array binding, the per-entity range binding and
the indexed draw, so that no texture and no sampler is bound on slots 0 to 3. -/
theorem C5_material_resolution (r : Renderer) (i : Nat) (entity : Entity) (mesh : Mesh)
    (sub : SubMesh) :
    (∀ m : Material, sub.mat = some m → resolve_material sub entity = some m) ∧
    (sub.mat = none → ∀ m : Material, entity.m_override_mat = some m →
      resolve_material sub entity = some m) ∧
    (sub.mat = none → entity.m_override_mat = none → resolve_material sub entity = none) ∧
    (resolve_material sub entity = none →
      submesh_cmds r i entity mesh sub =
        [Cmd.bind_vertex_array mesh.mesh_vertex_array,
         Cmd.bind_uniform_buffer_range r.m_per_entity ShaderType.VERTEX 1
           (i * sizeof_PerEntityUniforms) sizeof_PerEntityUniforms,
         Cmd.draw_indexed_base_vertex sub.indexCount sub.baseIndex sub.baseVertex] ∧
      ∀ c ∈ submesh_cmds r i entity mesh sub, is_material_slot_bind c = false) := by
  refine ⟨?_, ?_, ?_, ?_⟩
  · intro m hm
    simp [resolve_material, hm]
  · intro hn m hm
    simp [resolve_material, hn, hm]
  · intro hn ho
    simp [resolve_material, hn, ho]
  · intro hres
    have hc : submesh_cmds r i entity mesh sub =
        [Cmd.bind_vertex_array mesh.mesh_vertex_array,
         Cmd.bind_uniform_buffer_range r.m_per_entity ShaderType.VERTEX 1
           (i * sizeof_PerEntityUniforms) sizeof_PerEntityUniforms,
         Cmd.draw_indexed_base_vertex sub.indexCount sub.baseIndex sub.baseVertex] := by
      simp [submesh_cmds, hres, material_cmds]
    refine ⟨hc, ?_⟩
    rw [hc]
    intro c hmem
    simp only [List.mem_cons, List.mem_singleton, List.not_mem_nil, or_false] at hmem
    rcases hmem with h | h | h <;> subst h <;> rfl

/-- C5 (witness): the submesh of `sample_mesh` has no material and `sample_entity` has no override;
its draw at entity index 0 is the three calls, the range at offset 0 with length 256. -/
theorem C5_material_resolution_witness :
    resolve_material ⟨6, 0, 0, none⟩ sample_entity = none ∧
    submesh_cmds sample_renderer 0 sample_entity sample_mesh ⟨6, 0, 0, none⟩ =
      [Cmd.bind_vertex_array 30,
       Cmd.bind_uniform_buffer_range 6 ShaderType.VERTEX 1 0 256,
       Cmd.draw_indexed_base_vertex 6 0 0] :=
  ⟨rfl, ((C5_material_resolution sample_renderer 0 sample_entity sample_mesh
    ⟨6, 0, 0, none⟩).2.2.2 rfl).1.trans (by decide)⟩


/-- C6 (counterexample): two renderers that differ only in the `lastViewProj` member of their
per-frame block render the same camera and scene; the blocks still differ afterwards, so the block
is not determined by the camera alone. -/
theorem C6_per_frame_block_counterexample :
    ∃ ra rb,
      render sample_mul ⟨true, true, true⟩
        { set_scene sample_renderer (some sample_scene) with
          m_per_frame_uniforms :=
            { (default : PerFrameUniforms) with lastViewProj := ⟨⟨1, 0, 0, 0⟩, default, default, default⟩ } }
        default = some ra ∧
      render sample_mul ⟨true, true, true⟩
        { set_scene sample_renderer (some sample_scene) with
          m_per_frame_uniforms :=
            { (default : PerFrameUniforms) with lastViewProj := ⟨⟨2, 0, 0, 0⟩, default, default, default⟩ } }
        default = some rb ∧
      ra.m_per_frame_uniforms.lastViewProj.c0.x = 1 ∧
      rb.m_per_frame_uniforms.lastViewProj.c0.x = 2 ∧
      ra.m_per_frame_uniforms ≠ rb.m_per_frame_uniforms := by
  refine ⟨_, _, rfl, rfl, rfl, rfl, by decide⟩

/-- C6 (amended): on a renderer whose scene is set and holds at most 1024 entities, `render`
returns, and afterwards `viewProj`, `projMat` and `viewMat` of the per-frame block are the camera's
view-projection, projection and view matrices, `viewDir` and `viewPos` are the camera's forward and
position with w = 0, and `lastViewProj` and `invViewProj` have the values they had before the
call. -/
theorem C6_per_frame_block_update (mul : Mat4 → Mat4 → Mat4) (maps : MapReplies) (r : Renderer)
    (camera : Camera) (scene : Scene) (hs : r.m_scene = some scene)
    (hN : scene.entity_count ≤ PER_ENTITY_CAPACITY) :
    ∃ r', render mul maps r camera = some r' ∧
      r'.m_per_frame_uniforms.viewProj = camera.m_view_projection ∧
      r'.m_per_frame_uniforms.projMat = camera.m_projection ∧
      r'.m_per_frame_uniforms.viewMat = camera.m_view ∧
      r'.m_per_frame_uniforms.viewDir =
        ⟨camera.m_forward.x, camera.m_forward.y, camera.m_forward.z, 0⟩ ∧
      r'.m_per_frame_uniforms.viewPos =
        ⟨camera.m_position.x, camera.m_position.y, camera.m_position.z, 0⟩ ∧
      r'.m_per_frame_uniforms.lastViewProj = r.m_per_frame_uniforms.lastViewProj ∧
      r'.m_per_frame_uniforms.invViewProj = r.m_per_frame_uniforms.invViewProj := by
  obtain ⟨arr, r', -, hr, -, hu, -⟩ := render_spec mul maps r camera scene hs hN
  refine ⟨r', hr, ?_⟩
  rw [hu]
  exact ⟨rfl, rfl, rfl, rfl, rfl, rfl, rfl⟩

/-- C6 (witness): the sample scene; `lastViewProj` keeps the value it had. -/
theorem C6_per_frame_block_update_witness :
    (set_scene sample_renderer (some sample_scene)).m_scene = some sample_scene ∧
    sample_scene.entity_count ≤ PER_ENTITY_CAPACITY ∧
    ∃ r', render sample_mul ⟨true, true, true⟩ (set_scene sample_renderer (some sample_scene))
        default = some r' ∧
      r'.m_per_frame_uniforms.viewProj = (default : Camera).m_view_projection ∧
      r'.m_per_frame_uniforms.lastViewProj =
        (set_scene sample_renderer (some sample_scene)).m_per_frame_uniforms.lastViewProj := by
  refine ⟨rfl, by decide, ?_⟩
  obtain ⟨r', h1, h2, -, -, -, -, h7, -⟩ :=
    C6_per_frame_block_update sample_mul ⟨true, true, true⟩
      (set_scene sample_renderer (some sample_scene)) default sample_scene rfl (by decide)
  exact ⟨r', h1, h2, h7⟩

/-- C7: on a renderer whose scene is set and holds at most 1024 entities, a `render` call whose
per-frame `map_buffer` returns null returns normally; the per-frame device buffer keeps its
contents; after the failed `map_buffer` the frame continues with exactly the commands that follow
the per-frame unmap of the call whose mapping succeeds (per-scene and per-entity uploads, opaque
pass, atmosphere pass), leaving the same per-scene and per-entity buffer contents and the same
renderer members; and when the per-frame buffer handle differs from the two other uniform buffer
handles, no `unmap_buffer` of it is in the frame. -/
theorem C7_per_frame_map_failure (mul : Mat4 → Mat4 → Mat4) (ps pe : Bool) (r : Renderer)
    (camera : Camera) (scene : Scene) (hs : r.m_scene = some scene)
    (hN : scene.entity_count ≤ PER_ENTITY_CAPACITY) :
    ∃ r_fail r_ok rest uploads,
      render mul ⟨false, ps, pe⟩ r camera = some r_fail ∧
      render mul ⟨true, ps, pe⟩ r camera = some r_ok ∧
      r_fail.m_device.per_frame_mem = r.m_device.per_frame_mem ∧
      r_fail.m_device.trace = r.m_device.trace ++
        ([Cmd.map_buffer r.m_per_frame BufferMapType.WRITE] ++ rest) ∧
      r_ok.m_device.trace = r.m_device.trace ++
        ([Cmd.map_buffer r.m_per_frame BufferMapType.WRITE,
          Cmd.memcpy r.m_per_frame 0 sizeof_PerFrameUniforms,
          Cmd.unmap_buffer r.m_per_frame] ++ rest) ∧
      rest = uploads ++ (render_scene_cmds r scene ++ render_atmosphere_cmds r scene) ∧
      uploads = (upload_cmds ⟨false, ps, pe⟩ r scene.entity_count).tail ∧
      Cmd.map_buffer r.m_per_scene BufferMapType.WRITE ∈ uploads ∧
      Cmd.map_buffer r.m_per_entity BufferMapType.WRITE ∈ uploads ∧
      r_fail.m_device.per_scene_mem = r_ok.m_device.per_scene_mem ∧
      r_fail.m_device.per_entity_mem = r_ok.m_device.per_entity_mem ∧
      r_fail.m_per_frame_uniforms = r_ok.m_per_frame_uniforms ∧
      r_fail.m_per_entity_uniforms = r_ok.m_per_entity_uniforms ∧
      r_fail.m_per_scene_uniforms = r_ok.m_per_scene_uniforms ∧
      (r.m_per_frame ≠ r.m_per_scene → r.m_per_frame ≠ r.m_per_entity →
        Cmd.unmap_buffer r.m_per_frame ∉
          [Cmd.map_buffer r.m_per_frame BufferMapType.WRITE] ++ rest) := by
  obtain ⟨arr, harr, hfail⟩ := render_eq mul ⟨false, ps, pe⟩ r camera scene hs hN
  obtain ⟨arr', harr', hok⟩ := render_eq mul ⟨true, ps, pe⟩ r camera scene hs hN
  have harreq : arr' = arr := Option.some.inj (harr'.symm.trans harr)
  subst harreq
  refine ⟨_, _, _, _, hfail, hok, rfl, ?_, ?_, rfl, rfl, ?_, ?_, rfl, rfl, rfl, rfl, rfl, ?_⟩
  · simp [upload_cmds]
  · simp [upload_cmds]
  · cases ps <;> cases pe <;> simp [upload_cmds]
  · cases ps <;> cases pe <;> simp [upload_cmds]
  · intro h1 h2 hmem
    simp only [List.mem_append, List.mem_singleton] at hmem
    rcases hmem with h | (h | h | h)
    · exact Cmd.noConfusion h
    · cases ps <;> cases pe <;> simp [upload_cmds, h1, h2] at h
    · simp only [render_scene_cmds, List.mem_append] at h
      rcases h with h | h
      · simp [render_scene_begin] at h
      · exact Bool.noConfusion (entity_loop_kind r scene scene.entities 0 _ h)
    · simp [render_atmosphere_cmds] at h

/-- C7 (witness): the sample scene with the per-frame mapping failing and the other two
succeeding. -/
theorem C7_per_frame_map_failure_witness :
    (set_scene sample_renderer (some sample_scene)).m_scene = some sample_scene ∧
    sample_scene.entity_count ≤ PER_ENTITY_CAPACITY ∧
    ∃ r_fail r_ok,
      render sample_mul ⟨false, true, true⟩ (set_scene sample_renderer (some sample_scene))
        default = some r_fail ∧
      render sample_mul ⟨true, true, true⟩ (set_scene sample_renderer (some sample_scene))
        default = some r_ok ∧
      r_fail.m_device.per_frame_mem =
        (set_scene sample_renderer (some sample_scene)).m_device.per_frame_mem ∧
      r_fail.m_device.per_entity_mem = r_ok.m_device.per_entity_mem := by
  refine ⟨rfl, by decide, ?_⟩
  obtain ⟨r_fail, r_ok, -, -, h1, h2, h3, -, -, -, -, -, -, -, h11, -⟩ :=
    C7_per_frame_map_failure sample_mul true true
      (set_scene sample_renderer (some sample_scene)) default sample_scene rfl (by decide)
  exact ⟨r_fail, r_ok, h1, h2, h3, h11⟩

/-- C8: on a renderer whose scene has no entity, `render` returns and the frame consists of the
uploads, the three opening calls of the opaque pass and the atmosphere pass: it holds exactly one
`clear_framebuffer`, issued right after binding the default framebuffer, exactly one atmosphere
draw `draw(0, 36)` and no `draw_indexed_base_vertex`. -/
theorem C8_empty_scene (mul : Mat4 → Mat4 → Mat4) (maps : MapReplies) (r : Renderer)
    (camera : Camera) (scene : Scene) (hs : r.m_scene = some scene)
    (h0 : scene.entity_count = 0) :
    ∃ r' frame, render mul maps r camera = some r' ∧
      r'.m_device.trace = r.m_device.trace ++ frame ∧
      frame = upload_cmds maps r 0 ++ (render_scene_begin r ++ render_atmosphere_cmds r scene) ∧
      frame.countP is_clear_framebuffer = 1 ∧
      frame.count (Cmd.clear_framebuffer ClearTarget.ALL clear_color) = 1 ∧
      frame.countP is_atmosphere_draw = 1 ∧
      frame.count (Cmd.draw 0 36) = 1 ∧
      frame.countP is_draw_indexed = 0 := by
  have hnil : scene.entities = [] := List.length_eq_zero.mp h0
  obtain ⟨arr, r', -, hr, htrace, -⟩ :=
    render_spec mul maps r camera scene hs (by rw [h0]; exact Nat.zero_le _)
  have hframe : upload_cmds maps r scene.entity_count ++
      (render_scene_cmds r scene ++ render_atmosphere_cmds r scene) =
      upload_cmds maps r 0 ++ (render_scene_begin r ++ render_atmosphere_cmds r scene) := by
    simp [render_scene_cmds, hnil, entity_loop, h0]
  rw [hframe] at htrace
  refine ⟨r', _, hr, htrace, rfl, ?_, ?_, ?_, ?_, ?_⟩ <;>
    obtain ⟨pf, ps, pe⟩ := maps <;>
    cases pf <;> cases ps <;> cases pe <;>
    simp [upload_cmds, render_scene_begin, render_atmosphere_cmds, List.countP_cons,
      List.count_cons, is_clear_framebuffer, is_atmosphere_draw, is_draw_indexed]

/-- C8 (witness): the sample renderer with an empty scene, every mapping succeeding. -/
theorem C8_empty_scene_witness :
    (set_scene sample_renderer (some ⟨[], 50, 51, 52⟩)).m_scene = some ⟨[], 50, 51, 52⟩ ∧
    (⟨[], 50, 51, 52⟩ : Scene).entity_count = 0 ∧
    ∃ r' frame, render sample_mul ⟨true, true, true⟩
        (set_scene sample_renderer (some ⟨[], 50, 51, 52⟩)) default = some r' ∧
      r'.m_device.trace = (set_scene sample_renderer (some ⟨[], 50, 51, 52⟩)).m_device.trace ++ frame ∧
      frame.countP is_clear_framebuffer = 1 ∧
      frame.countP is_atmosphere_draw = 1 ∧
      frame.countP is_draw_indexed = 0 := by
  refine ⟨rfl, rfl, ?_⟩
  obtain ⟨r', frame, h1, h2, -, h4, -, h6, -, h8⟩ :=
    C8_empty_scene sample_mul ⟨true, true, true⟩
      (set_scene sample_renderer (some ⟨[], 50, 51, 52⟩)) default ⟨[], 50, 51, 52⟩ rfl rfl
  exact ⟨r', frame, h1, h2, h4, h6, h8⟩


/-- C9: let the entity at index i of the scene have a null mesh or a null program.  The entity loop
of the opaque pass issues no call for it; `render_scene` returns and its calls are the three
opening calls, the calls of the entities before i and the calls of the entities after i, the latter
numbered from i + 1 on, so that the entity at position k behind i keeps index i + 1 + k in its
range offset; and replacing the entity at index i by any other entity (one whose mesh has no
submesh, say) changes nothing but the calls of index i itself. -/
theorem C9_skipped_entity (r : Renderer) (scene : Scene) (before after : List Entity) (e : Entity)
    (hs : r.m_scene = some scene) (hsplit : scene.entities = before ++ e :: after)
    (hskip : e.m_mesh = none ∨ e.m_program = nullptr) :
    entity_cmds r scene before.length e = [] ∧
    (∃ r', render_scene r = some r' ∧
      r'.m_device.trace = r.m_device.trace ++
        (render_scene_begin r ++
          (entity_loop r scene 0 before ++ entity_loop r scene (before.length + 1) after))) ∧
    (∀ e' : Entity, ∃ r2,
      render_scene (set_scene r (some { scene with entities := before ++ e' :: after })) = some r2 ∧
      r2.m_device.trace = r.m_device.trace ++
        (render_scene_begin r ++
          (entity_loop r scene 0 before ++
            (entity_cmds r scene before.length e' ++
              entity_loop r scene (before.length + 1) after)))) ∧
    (∀ (a1 a2 : List Entity) (e2 : Entity), after = a1 ++ e2 :: a2 →
      entity_loop r scene (before.length + 1) after =
        entity_loop r scene (before.length + 1) a1 ++
          (entity_cmds r scene (before.length + 1 + a1.length) e2 ++
            entity_loop r scene (before.length + 1 + a1.length + 1) a2)) := by
  have hnone : entity_cmds r scene before.length e = [] := by
    unfold entity_cmds
    rcases hskip with h | h
    · rw [h]
    · cases e.m_mesh with
      | none => rfl
      | some mesh => simp [h]
  refine ⟨hnone, ?_, ?_, ?_⟩
  · have hrs : render_scene r = some (r.issue (render_scene_cmds r scene)) := by
      simp only [render_scene, hs]
    refine ⟨_, hrs, ?_⟩
    simp only [Renderer.issue, RenderDevice.issue, render_scene_cmds, hsplit, entity_loop_append,
      entity_loop, hnone, Nat.zero_add, List.nil_append]
  · intro e'
    have hrs : render_scene (set_scene r (some { scene with entities := before ++ e' :: after })) =
        some ((set_scene r (some { scene with entities := before ++ e' :: after })).issue
          (render_scene_cmds (set_scene r (some { scene with entities := before ++ e' :: after }))
            { scene with entities := before ++ e' :: after })) := rfl
    refine ⟨_, hrs, ?_⟩
    have hcongr : ∀ (i : Nat) (es : List Entity),
        entity_loop r { scene with entities := before ++ e' :: after } i es =
          entity_loop r scene i es :=
      fun i es => entity_loop_scene r scene { scene with entities := before ++ e' :: after }
        rfl rfl es i
    have hecongr : entity_cmds r { scene with entities := before ++ e' :: after } before.length e' =
        entity_cmds r scene before.length e' := by
      have h1 := hcongr before.length [e']
      simpa [entity_loop] using h1
    have hframe : ∀ (sc : Option Scene) (s : Scene),
        render_scene_cmds { r with m_scene := sc } s = render_scene_cmds r s := by
      intro sc s
      exact render_scene_cmds_frame r sc r.m_device r.m_per_frame_uniforms
        r.m_per_entity_uniforms s
    simp only [Renderer.issue, RenderDevice.issue, set_scene, hframe]
    simp only [render_scene_cmds, entity_loop_append, entity_loop, hcongr, hecongr, Nat.zero_add]
  · intro a1 a2 e2 ha
    rw [ha, entity_loop_append]
    rfl

/-- C9 (witness): a scene of three entities whose middle one has a program but no mesh; the third
entity is drawn with index 2, its range offset being 2 * 256 = 512. -/
theorem C9_skipped_entity_witness :
    (set_scene sample_renderer
      (some ⟨[sample_entity, { sample_entity with m_mesh := none }, sample_entity], 50, 51, 52⟩)).m_scene
      = some ⟨[sample_entity, { sample_entity with m_mesh := none }, sample_entity], 50, 51, 52⟩ ∧
    (({ sample_entity with m_mesh := none } : Entity).m_mesh = none ∨
      ({ sample_entity with m_mesh := none } : Entity).m_program = nullptr) ∧
    entity_cmds
      (set_scene sample_renderer
        (some ⟨[sample_entity, { sample_entity with m_mesh := none }, sample_entity], 50, 51, 52⟩))
      ⟨[sample_entity, { sample_entity with m_mesh := none }, sample_entity], 50, 51, 52⟩
      [sample_entity].length { sample_entity with m_mesh := none } = [] ∧
    Cmd.bind_uniform_buffer_range 6 ShaderType.VERTEX 1 512 256 ∈
      entity_loop
        (set_scene sample_renderer
          (some ⟨[sample_entity, { sample_entity with m_mesh := none }, sample_entity], 50, 51, 52⟩))
        ⟨[sample_entity, { sample_entity with m_mesh := none }, sample_entity], 50, 51, 52⟩
        ([sample_entity].length + 1) [sample_entity] :=
  ⟨rfl, Or.inl rfl,
   (C9_skipped_entity
      (set_scene sample_renderer
        (some ⟨[sample_entity, { sample_entity with m_mesh := none }, sample_entity], 50, 51, 52⟩))
      ⟨[sample_entity, { sample_entity with m_mesh := none }, sample_entity], 50, 51, 52⟩
      [sample_entity] [sample_entity] { sample_entity with m_mesh := none } rfl rfl (Or.inl rfl)).1,
   by decide⟩

/-- C10: when the source text of `path` cannot be read, `load_shader` returns the null handle and
the renderer unchanged (no `create_shader` in the device trace, same shader cache), whatever the
cache holds; a handle cached under `path` is not returned unless it is null itself. -/
theorem C10_load_shader_unreadable (ReadText : String → Option String)
    (create_shader : String → Int → Ptr) (r : Renderer) (type : Int) (path : String)
    (mat : Option Material) (h : ReadText path = none) :
    (load_shader ReadText create_shader r type path mat).1 = nullptr ∧
    (load_shader ReadText create_shader r type path mat).2 = r ∧
    (load_shader ReadText create_shader r type path mat).2.m_device.trace = r.m_device.trace ∧
    (load_shader ReadText create_shader r type path mat).2.m_shader_cache = r.m_shader_cache ∧
    (∀ cached : Ptr, r.m_shader_cache.lookup path = some cached → cached ≠ nullptr →
      (load_shader ReadText create_shader r type path mat).1 ≠ cached) := by
  have hl : load_shader ReadText create_shader r type path mat = (nullptr, r) := by
    simp [load_shader, h]
  rw [hl]
  exact ⟨rfl, rfl, rfl, rfl, fun cached _ hne heq => hne heq.symm⟩

/-- C10 (witness): "a.glsl" is cached under handle 7 and its file has become unreadable; the call
returns the null handle, not 7, and the cache still maps "a.glsl" to 7. -/
theorem C10_load_shader_unreadable_witness :
    (fun _ : String => (none : Option String)) "a.glsl" = none ∧
    ({ sample_renderer with
        m_shader_cache := (∅ : Cache).insert "a.glsl" 7 } : Renderer).m_shader_cache.lookup "a.glsl"
      = some 7 ∧
    (load_shader (fun _ => none) (fun _ _ => 9)
      { sample_renderer with m_shader_cache := (∅ : Cache).insert "a.glsl" 7 } 0 "a.glsl" none).1
      = nullptr ∧
    (load_shader (fun _ => none) (fun _ _ => 9)
      { sample_renderer with m_shader_cache := (∅ : Cache).insert "a.glsl" 7 } 0 "a.glsl"
      none).2.m_shader_cache.lookup "a.glsl" = some 7 := by
  have h := C10_load_shader_unreadable (fun _ => none) (fun _ _ => 9)
    { sample_renderer with m_shader_cache := (∅ : Cache).insert "a.glsl" 7 } 0 "a.glsl" none rfl
  refine ⟨rfl, by decide, h.1, ?_⟩
  rw [h.2.2.2.1]
  decide

/-- C11: the per-entity device buffer has 1024 * 256 bytes.  Run on a scene of N entities, the
loop of `render` stores to the elements 0, 1, ..., N - 1 of `m_per_entity_uniforms`, in that order
and to no other: element i receives the record of entity i and every element from N on keeps its
value.  When N is at most 1024, every index stored to is in the range from 0 to 1023, N * 256 is at
most the buffer size, `render` returns with the array the loop produced, every `memcpy` of the frame
into the per-entity buffer ends inside the buffer, and every `bind_uniform_buffer_range` of the
frame binds the bytes from i * 256 up to i * 256 + 256 for an entity index i below N, which lie
inside the buffer.  When N exceeds 1024 the loop, which has no capacity check, stores to index 1024:
the element behind the end of the array receives the record of entity 1024. -/
theorem C11_per_entity_capacity (mul : Mat4 → Mat4 → Mat4) (maps : MapReplies) (r : Renderer)
    (camera : Camera) (scene : Scene) (hs : r.m_scene = some scene) :
    per_entity_ubo_size = 1024 * 256 ∧
    (per_entity_loop mul camera scene.entities 0 ⟨r.m_per_entity_uniforms, []⟩).stores
      = List.range scene.entity_count ∧
    (∀ (i : Nat) (e : Entity), scene.entities[i]? = some e →
      (per_entity_loop mul camera scene.entities 0 ⟨r.m_per_entity_uniforms, []⟩).cells i
        = update_entity_record mul camera e (r.m_per_entity_uniforms i)) ∧
    (∀ k : Nat, scene.entity_count ≤ k →
      (per_entity_loop mul camera scene.entities 0 ⟨r.m_per_entity_uniforms, []⟩).cells k
        = r.m_per_entity_uniforms k) ∧
    (scene.entity_count ≤ 1024 →
      (∀ i ∈ (per_entity_loop mul camera scene.entities 0 ⟨r.m_per_entity_uniforms, []⟩).stores,
        0 ≤ i ∧ i < 1024) ∧
      scene.entity_count * 256 ≤ per_entity_ubo_size ∧
      ∃ r' frame, render mul maps r camera = some r' ∧
        r'.m_per_entity_uniforms
          = (per_entity_loop mul camera scene.entities 0 ⟨r.m_per_entity_uniforms, []⟩).cells ∧
        r'.m_device.trace = r.m_device.trace ++ frame ∧
        (maps.per_entity = true →
          Cmd.memcpy r.m_per_entity 0 (scene.entity_count * 256) ∈ frame) ∧
        (∀ off size, Cmd.memcpy r.m_per_entity off size ∈ frame →
          off + size ≤ per_entity_ubo_size) ∧
        (∀ b st sl off len, Cmd.bind_uniform_buffer_range b st sl off len ∈ frame →
          ∃ i, i < scene.entity_count ∧ off = i * 256 ∧ len = 256 ∧
            off + len ≤ per_entity_ubo_size)) ∧
    (1024 < scene.entity_count →
      1024 ∈ (per_entity_loop mul camera scene.entities 0 ⟨r.m_per_entity_uniforms, []⟩).stores ∧
      (∃ i ∈ (per_entity_loop mul camera scene.entities 0 ⟨r.m_per_entity_uniforms, []⟩).stores,
        1024 ≤ i) ∧
      (∃ e : Entity, scene.entities[1024]? = some e ∧
        (per_entity_loop mul camera scene.entities 0 ⟨r.m_per_entity_uniforms, []⟩).cells 1024
          = update_entity_record mul camera e (r.m_per_entity_uniforms 1024))) := by
  have hsz : sizeof_PerEntityUniforms = 256 := by decide
  have hbuf : per_entity_ubo_size = 1024 * 256 := by decide
  have hstores : (per_entity_loop mul camera scene.entities 0 ⟨r.m_per_entity_uniforms, []⟩).stores
      = List.range scene.entity_count := by
    rw [per_entity_loop_stores, List.range_eq_range']
    rfl
  have hin : ∀ (i : Nat) (e : Entity), scene.entities[i]? = some e →
      (per_entity_loop mul camera scene.entities 0 ⟨r.m_per_entity_uniforms, []⟩).cells i
        = update_entity_record mul camera e (r.m_per_entity_uniforms i) := by
    intro i e he
    exact per_entity_loop_cells_in mul camera scene.entities 0 _ i e (Nat.zero_le i)
      (by simpa using he)
  refine ⟨hbuf, hstores, hin, ?_, ?_, ?_⟩
  · intro k hk
    exact per_entity_loop_cells_out mul camera scene.entities 0 _ k
      (Or.inr (by simpa [Scene.entity_count] using hk))
  · intro hN
    refine ⟨?_, by rw [hbuf]; omega, ?_⟩
    · intro i hi
      rw [hstores, List.mem_range] at hi
      exact ⟨Nat.zero_le i, by omega⟩
    obtain ⟨arr, r', harr, hr, htrace, -, hcells, -⟩ := render_spec mul maps r camera scene hs hN
    have hloop := update_per_entity_eq mul camera scene.entities 0 r.m_per_entity_uniforms
      (by simpa [Scene.entity_count] using hN)
    have harr' : arr = (per_entity_loop mul camera scene.entities 0
        ⟨r.m_per_entity_uniforms, []⟩).cells := Option.some.inj (harr.symm.trans hloop)
    refine ⟨r', _, hr, hcells.trans harr', htrace, ?_, ?_, ?_⟩
    · intro hpe
      simp [upload_cmds, hpe, hsz, Nat.mul_comm]
    · intro off size hmem
      rw [hbuf]
      simp only [List.mem_append] at hmem
      rcases hmem with h | h | h
      · obtain ⟨pf, ps, pe⟩ := maps
        have h352 : sizeof_PerFrameUniforms = 352 := by decide
        have h1072 : sizeof_PerSceneUniforms = 1072 := by decide
        cases pf <;> cases ps <;> cases pe <;>
          simp [upload_cmds, hsz, h352, h1072] at h <;> omega
      · simp only [render_scene_cmds, List.mem_append] at h
        rcases h with h | h
        · simp [render_scene_begin] at h
        · exact Bool.noConfusion (entity_loop_kind r scene scene.entities 0 _ h)
      · simp [render_atmosphere_cmds] at h
    · intro b st sl off len hmem
      simp only [List.mem_append] at hmem
      rcases hmem with h | h | h
      · obtain ⟨pf, ps, pe⟩ := maps
        cases pf <;> cases ps <;> cases pe <;> simp [upload_cmds] at h
      · simp only [render_scene_cmds, List.mem_append] at h
        rcases h with h | h
        · simp [render_scene_begin] at h
        · obtain ⟨i, -, h2, h3, h4, -⟩ := entity_loop_range r scene scene.entities 0 b st sl off len h
          rw [hsz] at h3 h4
          have hi : i < scene.entity_count := by simpa [Scene.entity_count] using h2
          exact ⟨i, hi, h3, h4, by rw [hbuf, h3, h4]; omega⟩
      · simp [render_atmosphere_cmds] at h
  · intro hN
    have h1024 : 1024 ∈ (per_entity_loop mul camera scene.entities 0
        ⟨r.m_per_entity_uniforms, []⟩).stores := by
      rw [hstores, List.mem_range]
      exact hN
    refine ⟨h1024, ⟨1024, h1024, Nat.le_refl _⟩, ?_⟩
    have hlen : 1024 < scene.entities.length := hN
    exact ⟨scene.entities[1024], List.getElem?_eq_getElem hlen,
      hin 1024 _ (List.getElem?_eq_getElem hlen)⟩

/-- C11 (witness): the loop stores to index 0 only on the one-entity sample scene, which stays
inside the capacity; on a scene of 1025 entities it stores to index 1024. -/
theorem C11_per_entity_capacity_witness :
    (set_scene sample_renderer (some sample_scene)).m_scene = some sample_scene ∧
    sample_scene.entity_count ≤ 1024 ∧
    (per_entity_loop sample_mul default sample_scene.entities 0
      ⟨(set_scene sample_renderer (some sample_scene)).m_per_entity_uniforms, []⟩).stores = [0] ∧
    (∀ i ∈ (per_entity_loop sample_mul default sample_scene.entities 0
      ⟨(set_scene sample_renderer (some sample_scene)).m_per_entity_uniforms, []⟩).stores,
      0 ≤ i ∧ i < 1024) ∧
    sample_scene.entity_count * 256 ≤ per_entity_ubo_size ∧
    1024 < (⟨List.replicate 1025 sample_entity, 50, 51, 52⟩ : Scene).entity_count ∧
    1024 ∈ (per_entity_loop sample_mul default
      (⟨List.replicate 1025 sample_entity, 50, 51, 52⟩ : Scene).entities 0
      ⟨(set_scene sample_renderer
        (some ⟨List.replicate 1025 sample_entity, 50, 51, 52⟩)).m_per_entity_uniforms, []⟩).stores := by
  have h1 := C11_per_entity_capacity sample_mul ⟨true, true, true⟩
    (set_scene sample_renderer (some sample_scene)) default sample_scene rfl
  have hbig : 1024 < (⟨List.replicate 1025 sample_entity, 50, 51, 52⟩ : Scene).entity_count := by
    show 1024 < (List.replicate 1025 sample_entity).length
    rw [List.length_replicate]
    exact Nat.lt_succ_self 1024
  have h2 := C11_per_entity_capacity sample_mul ⟨true, true, true⟩
    (set_scene sample_renderer (some ⟨List.replicate 1025 sample_entity, 50, 51, 52⟩)) default
    ⟨List.replicate 1025 sample_entity, 50, 51, 52⟩ rfl
  have hsmall : sample_scene.entity_count ≤ 1024 := by decide
  exact ⟨rfl, hsmall, h1.2.1.trans (by decide), (h1.2.2.2.2.1 hsmall).1,
    (h1.2.2.2.2.1 hsmall).2.1, hbig, (h2.2.2.2.2.2 hbig).1⟩

end dw
